import Mathlib

/-!
Verification of the render/light/model management pipeline of the
opengl-tutorial repository.

The embedding covers:
* the global constants of src/include/constants.cpp;
* the three entity registries of RenderManager (src/include/render.cpp),
  modelled as strictly key-sorted association lists mirroring
  std::map<std::string, T>;
* ShotModel::update and its private helpers (src/models/shot_model.cpp);
* RenderManager::renderLights, renderModels and render
  (src/include/render.cpp), instrumented as a list of observable GL /
  window-collaborator calls in submission order.

Real-number quantities (positions, times, intensities) are modelled
exactly in the rationals.  4x4 matrices are modelled as elements of an
arbitrary monoid M (matrix multiplication; the value constructed by the
default constructor of the matrix type is the identity, written 1).
-/

set_option maxRecDepth 4000

namespace OpenGLTutorial

/-- WINDOW_WIDTH (constants.cpp line 8). -/
def WINDOW_WIDTH : ℕ := 800

/-- WINDOW_HEIGHT (constants.cpp line 9). -/
def WINDOW_HEIGHT : ℕ := 600

/-- MAX_CONE_LIGHTS (constants.cpp line 10). -/
def MAX_CONE_LIGHTS : ℕ := 4

/-- MAX_POINT_LIGHTS (constants.cpp line 11). -/
def MAX_POINT_LIGHTS : ℕ := 6

/-- VIEWPORT_WIDTH (constants.cpp line 15). -/
def VIEWPORT_WIDTH : ℕ := WINDOW_WIDTH

/-- VIEWPORT_HEIGHT (constants.cpp line 16). -/
def VIEWPORT_HEIGHT : ℕ := WINDOW_HEIGHT

/-- FRAMEBUFFER_WIDTH (constants.cpp line 17). -/
def FRAMEBUFFER_WIDTH : ℕ := VIEWPORT_WIDTH * 2

/-- FRAMEBUFFER_HEIGHT (constants.cpp line 18). -/
def FRAMEBUFFER_HEIGHT : ℕ := VIEWPORT_HEIGHT * 2

/-- Lexicographic strict order on character lists, by code point: the
std::string operator< used as the std::map key comparator. -/
def charListLt : List Char → List Char → Bool
  | _, [] => false
  | [], _ :: _ => true
  | a :: as, b :: bs =>
    if a.toNat < b.toNat then true
    else if b.toNat < a.toNat then false
    else charListLt as bs

/-- Lexicographic strict order on strings (std::string operator<). -/
def strLt (a b : String) : Bool := charListLt a.data b.data

/-- A std::map<std::string, A>: an association list whose keys are kept
strictly increasing (the std::map ordering invariant). -/
abbrev StdMap (A : Type) : Type := List (String × A)

/-- std::map::insert: inserts the pair at its sorted position when the key
is absent; when the key is already present the call is a silent no-op and
the previously mapped value is kept (std::map::insert never overwrites).
Used by RenderManager::registerLight / registerModel / registerCamera
(render.cpp lines 122-125, 137-140, 152-155). -/
def StdMap.insert {A : Type} (k : String) (v : A) : StdMap A → StdMap A
  | [] => [(k, v)]
  | (k₁, v₁) :: rest =>
    if strLt k k₁ then (k, v) :: (k₁, v₁) :: rest
    else if k = k₁ then (k₁, v₁) :: rest
    else (k₁, v₁) :: StdMap.insert k v rest

/-- std::map::erase(key): removes the entry with the given key (keys are
unique in a std::map); a silent no-op when the key is absent.  Used by the
deregister operations of RenderManager (render.cpp lines 127-135, 142-150,
157-165). -/
def StdMap.erase {A : Type} (k : String) (m : StdMap A) : StdMap A :=
  m.filter (fun p => p.1 != k)

/-- Lookup of the mapped value at a key (std::map::find / at). -/
def StdMap.find {A : Type} (k : String) : StdMap A → Option A
  | [] => none
  | (k₁, v₁) :: rest => if k = k₁ then some v₁ else StdMap.find k rest

/-- The std::map key invariant: keys strictly increasing. -/
def StdMap.Sorted {A : Type} (m : StdMap A) : Prop :=
  List.Pairwise (fun p q => strLt p.1 q.1 = true) m

instance stdMapSortedDecidable {A : Type} (m : StdMap A) :
    Decidable (StdMap.Sorted m) :=
  inferInstanceAs (Decidable (List.Pairwise _ m))

/-- A 3-component vector (glm::vec3), with exact rational components. -/
structure Vec3 where
  x : ℚ
  y : ℚ
  z : ℚ
deriving DecidableEq

/-- The shadow-buffer variant tag ShadowBufferType of light_base.cpp. -/
inductive ShadowBufferType
  | SIMPLE
  | CUBE
deriving DecidableEq

/-- Modelled from the spec: the light entity of light_base.cpp (that file is
not under src/) — identifier, position, color, intensity, near/far planes,
view and projection matrix lists (1 pair for SIMPLE, 6 for CUBE), shader
handle, and the shadow-buffer handles (framebuffer id, depth-texture id,
variant tag).  M is the matrix monoid. -/
structure LightBase (M : Type) where
  lightId : String
  lightPosition : Vec3
  lightColor : Vec3
  lightIntensity : ℚ
  nearPlane : ℚ
  farPlane : ℚ
  viewMatrices : List M
  projectionMatrices : List M
  shaderId : ℕ
  shadowBufferId : ℕ
  shadowBufferTextureId : ℕ
  shadowBufferType : ShadowBufferType
deriving DecidableEq

/-- Modelled from the spec: the render-facing part of the model entity of
model_base.cpp (not under src/) — identifier, shader / texture / buffer
handles, vertex-buffer size, and the model matrix. -/
structure ModelRender (M : Type) where
  modelId : String
  shaderId : ℕ
  textureId : ℕ
  vertexBufferId : ℕ
  uvBufferId : ℕ
  normalBufferId : ℕ
  bufferSize : ℕ
  modelMatrix : M
deriving DecidableEq

/-- Modelled from the spec: the camera entity of camera_base.cpp (not under
src/) — identifier, view matrix, projection matrix. -/
structure CameraBase (M : Type) where
  cameraId : String
  viewMatrix : M
  projectionMatrix : M
deriving DecidableEq

/-- The state of RenderManager (render.cpp lines 81-107): the active camera
id, the two dead placeholder lights, the three registries, and the two
clock samples. -/
structure RenderManagerState (M : Type) where
  activeCameraId : String
  deadSimpleLight : LightBase M
  deadCubeLight : LightBase M
  registeredLights : StdMap (LightBase M)
  registeredModels : StdMap (ModelRender M)
  registeredCameras : StdMap (CameraBase M)
  startTime : ℚ
  lastTime : ℚ
deriving DecidableEq

/-- RenderManager::registerLight (render.cpp lines 122-125). -/
def RenderManagerState.registerLight {M : Type} (s : RenderManagerState M)
    (l : LightBase M) : RenderManagerState M :=
  { s with registeredLights := StdMap.insert l.lightId l s.registeredLights }

/-- RenderManager::deregisterLight (render.cpp lines 127-135; the entity
overload erases by the entity's own id, so both overloads are this map
erase). -/
def RenderManagerState.deregisterLight {M : Type} (s : RenderManagerState M)
    (lightId : String) : RenderManagerState M :=
  { s with registeredLights := StdMap.erase lightId s.registeredLights }

/-- RenderManager::registerModel (render.cpp lines 137-140). -/
def RenderManagerState.registerModel {M : Type} (s : RenderManagerState M)
    (m : ModelRender M) : RenderManagerState M :=
  { s with registeredModels := StdMap.insert m.modelId m s.registeredModels }

/-- RenderManager::deregisterModel (render.cpp lines 142-150). -/
def RenderManagerState.deregisterModel {M : Type} (s : RenderManagerState M)
    (modelId : String) : RenderManagerState M :=
  { s with registeredModels := StdMap.erase modelId s.registeredModels }

/-- RenderManager::registerCamera (render.cpp lines 152-155). -/
def RenderManagerState.registerCamera {M : Type} (s : RenderManagerState M)
    (c : CameraBase M) : RenderManagerState M :=
  { s with registeredCameras := StdMap.insert c.cameraId c s.registeredCameras }

/-- RenderManager::deregisterCamera (render.cpp lines 157-165). -/
def RenderManagerState.deregisterCamera {M : Type} (s : RenderManagerState M)
    (cameraId : String) : RenderManagerState M :=
  { s with registeredCameras := StdMap.erase cameraId s.registeredCameras }

/-- Modelled from the spec: the gameplay-facing part of a registered model
(ModelBase in model_base.cpp / the ModelManager snapshot in
include/models.cpp, neither under src/): its display name (the type tag
used for "Enemy" matching) and its collider shape.  C is the
collider-shape type; the shape-vs-shape collision test
(DeepCollisionValidator::haveShapesCollided, not under src/) is supplied
to the update function as a parameter. -/
structure GameModel (C : Type) where
  modelName : String
  collider : C
deriving DecidableEq

/-- The per-instance state of a ShotModel (shot_model.cpp): identifier,
world position, the lastTime clock sample, the optional shot light
(recorded by its light id; null when absent), and the collider shape. -/
structure ShotState (C : Type) where
  modelId : String
  position : Vec3
  lastTime : ℚ
  shotLight : Option String
  collider : C
deriving DecidableEq

/-- Everything a ShotModel::update call reads and writes: the model
registry (ModelManager), the light registry (LightManager, each light
recorded by its position), the two static members of ShotModel
(isShotLightPresent, lastShotLightChange), and the shot instance itself.
The manager registries delegate to the same std::map operations as
RenderManager (spec section 4.1). -/
structure ShotWorld (C : Type) where
  models : StdMap (GameModel C)
  lights : StdMap Vec3
  isShotLightPresent : Bool
  lastShotLightChange : ℚ
  shot : ShotState C
deriving DecidableEq

/-- Replacement of the mapped value at a key, leaving the rest of the map
unchanged: the effect, seen through the registry, of mutating a
shared_ptr-owned entity that the registry also points to
(shotLight->setLightPosition in shot_model.cpp line 95). -/
def StdMap.setValue {A : Type} (k : String) (v : A) (m : StdMap A) : StdMap A :=
  m.map (fun p => if p.1 = k then (p.1, v) else p)

/-- ShotModel::destroyShotLight (shot_model.cpp lines 67-78): if a shot
light exists, deregister it and null the pointer; then clear the static
toggle. -/
def destroyShotLight {C : Type} (w : ShotWorld C) : ShotWorld C :=
  let w₁ :=
    match w.shot.shotLight with
    | some lid =>
        { w with lights := StdMap.erase lid w.lights
                 shot := { w.shot with shotLight := none } }
    | none => w
  { w₁ with isShotLightPresent := false }

/-- ShotModel::createShotLight (shot_model.cpp lines 48-62): destroy any
existing shot light, create a point light named modelId ++ "::ShotLight"
at the shot's position, register it, and set the static toggle. -/
def createShotLight {C : Type} (w : ShotWorld C) : ShotWorld C :=
  let w₁ := destroyShotLight w
  let lid := w₁.shot.modelId ++ "::ShotLight"
  { w₁ with shot := { w₁.shot with shotLight := some lid }
            lights := StdMap.insert lid w₁.shot.position w₁.lights
            isShotLightPresent := true }

/-- ShotModel::updateShotLight (shot_model.cpp lines 83-103): if the toggle
is on, create the light when missing and move it to the shot's position;
if the toggle is off and a light exists, destroy it. -/
def updateShotLight {C : Type} (w : ShotWorld C) : ShotWorld C :=
  if w.isShotLightPresent then
    let w₁ := if w.shot.shotLight = none then createShotLight w else w
    match w₁.shot.shotLight with
    | some lid =>
        { w₁ with lights := StdMap.setValue lid w₁.shot.position w₁.lights }
    | none => w₁
  else if w.shot.shotLight ≠ none then destroyShotLight w
  else w

/-- The collision scan of ShotModel::update (shot_model.cpp lines 184-201):
iterate the getAllModels snapshot in registry order; at the first model
whose display name is "Enemy" and whose collider collides with the shot's,
deregister that model and the shot and stop (break). -/
def shotCollisionScan {C : Type} (collides : C → C → Bool) (shot : ShotState C)
    (models : StdMap (GameModel C)) :
    List (String × GameModel C) → StdMap (GameModel C)
  | [] => models
  | (mid, gm) :: rest =>
    if gm.modelName = "Enemy" then
      if collides shot.collider gm.collider then
        StdMap.erase shot.modelId (StdMap.erase mid models)
      else shotCollisionScan collides shot models rest
    else shotCollisionScan collides shot models rest

/-- ShotModel::update (shot_model.cpp lines 153-205).  Inputs: the
collision predicate, whether GLFW_KEY_H is pressed this call, and
glfwGetTime() at the start of the call.  The early-out branch deregisters
the expired shot and returns at once; otherwise the call debounce-toggles
the static light flag, advances the position by velocity 100 along -z
scaled by the time delta, updates the shot light, runs the collision scan
over the registry snapshot, and finally advances lastTime. -/
def ShotModel.update {C : Type} (collides : C → C → Bool) (keyH : Bool)
    (currentTime : ℚ) (w : ShotWorld C) : ShotWorld C :=
  let deltaTime := currentTime - w.shot.lastTime
  let currentPosition := w.shot.position
  if currentPosition.z < -50 then
    { w with models := StdMap.erase w.shot.modelId w.models }
  else
    let w₁ :=
      if keyH ∧ currentTime - w.lastShotLightChange > 1/2 then
        { w with isShotLightPresent := !w.isShotLightPresent
                 lastShotLightChange := currentTime }
      else w
    let w₂ :=
      { w₁ with shot := { w₁.shot with position :=
          { w₁.shot.position with z := w₁.shot.position.z - 100 * deltaTime } } }
    let w₃ := updateShotLight w₂
    let snapshot := w₃.models
    let w₄ := { w₃ with models := shotCollisionScan collides w₃.shot w₃.models snapshot }
    { w₄ with shot := { w₄.shot with lastTime := currentTime } }

/-- The LightDetails record of render.cpp (lines 16-27). -/
structure LightDetails (M : Type) where
  lightPosition : Vec3
  lightVpMatrix : M
  lightColor : Vec3
  lightIntensity : ℚ
  mapWidth : ℕ
  mapHeight : ℕ
  nearPlane : ℚ
  farPlane : ℚ
  textureId : ℕ
deriving DecidableEq

/-- The std::map from ShadowBufferType to std::vector of LightDetails built
by renderLights (render.cpp line 182), as its two vectors. -/
structure CategorizedLights (M : Type) where
  simple : List (LightDetails M)
  cube : List (LightDetails M)
deriving DecidableEq

/-- The LightDetails record collected for one light (render.cpp lines
186-195).  getProjectionMatrices()[0] and getViewMatrices()[0] are modelled
as the heads of the matrix lists (the lists are nonempty by the variant
invariant); glm::mat4() is the identity matrix 1.  Note that line 191 and
line 192 both pass FRAMEBUFFER_WIDTH, for the mapWidth and the mapHeight
field alike. -/
def lightDetailsOf {M : Type} [Monoid M] (l : LightBase M) : LightDetails M where
  lightPosition := l.lightPosition
  lightVpMatrix := l.projectionMatrices.headD 1 * l.viewMatrices.headD 1 * 1
  lightColor := l.lightColor
  lightIntensity := l.lightIntensity
  mapWidth := FRAMEBUFFER_WIDTH
  mapHeight := FRAMEBUFFER_WIDTH
  nearPlane := l.nearPlane
  farPlane := l.farPlane
  textureId := l.shadowBufferTextureId

/-- The texture binding target of glBindTexture: GL_TEXTURE_2D or
GL_TEXTURE_CUBE_MAP. -/
inductive TexTarget
  | twoD
  | cubeMap
deriving DecidableEq

/-- One observable call on the GL / window collaborator, in submission
order.  A glActiveTexture + glBindTexture pair is one bindTexture event
carrying the selected texture unit; glUniform1i calls carry their integer
value; the remaining glUniform* calls are recorded by uniform name (the
glGetUniformLocation lookups themselves mutate nothing and are not
events); a draw call records the framebuffer bound at submission time and
the vertex count. -/
inductive GLCall
  | switchFrameBufferViewport
  | switchWindowViewport
  | setClearColor
  | clearScreen
  | bindFramebuffer (framebufferId : ℕ)
  | useProgram (shaderId : ℕ)
  | uniformNamed (uniform : String)
  | uniformInt (uniform : String) (value : ℕ)
  | bindTexture (unit : ℕ) (target : TexTarget) (textureId : ℕ)
  | enableAttribute (bufferId : ℕ)
  | drawArrays (framebufferId : ℕ) (bufferSize : ℕ)
deriving DecidableEq

/-- The GL calls of one iteration of the model loop inside the light loop
of renderLights (render.cpp lines 210-260): the per-light uniforms are
re-uploaded for every model, then the per-view vpMatrices, then the vertex
attribute is enabled and the draw into the light's shadow framebuffer is
submitted. -/
def shadowPassModelCalls {M : Type} (l : LightBase M) (m : ModelRender M) :
    List GLCall :=
  [GLCall.uniformInt "lightDetails_vertex.vpMatrixCount" l.viewMatrices.length,
   GLCall.uniformInt "lightDetails_geometry.vpMatrixCount" l.viewMatrices.length,
   GLCall.uniformInt "lightDetails_fragment.vpMatrixCount" l.viewMatrices.length,
   GLCall.uniformNamed "lightDetails_vertex.lightPosition",
   GLCall.uniformNamed "lightDetails_geometry.lightPosition",
   GLCall.uniformNamed "lightDetails_fragment.lightPosition",
   GLCall.uniformNamed "projectionDetails_vertex.nearPlane",
   GLCall.uniformNamed "projectionDetails_geometry.nearPlane",
   GLCall.uniformNamed "projectionDetails_fragment.nearPlane",
   GLCall.uniformNamed "projectionDetails_vertex.farPlane",
   GLCall.uniformNamed "projectionDetails_geometry.farPlane",
   GLCall.uniformNamed "projectionDetails_fragment.farPlane",
   GLCall.uniformNamed "modelMatrix"]
  ++ (List.range l.viewMatrices.length).flatMap (fun i =>
    [GLCall.uniformNamed ("lightDetails_vertex.vpMatrices[" ++ toString i ++ "]"),
     GLCall.uniformNamed ("lightDetails_geometry.vpMatrices[" ++ toString i ++ "]"),
     GLCall.uniformNamed ("lightDetails_fragment.vpMatrices[" ++ toString i ++ "]")])
  ++ [GLCall.enableAttribute m.vertexBufferId,
      GLCall.drawArrays l.shadowBufferId m.bufferSize]

/-- One iteration of the light loop of renderLights (render.cpp lines
184-263): collect the LightDetails record into the per-variant vector,
bind the light's shadow framebuffer, clear, switch the shader program only
when it differs from the cached one (cache initialised to -1), run the
model loop, and restore the default framebuffer. -/
def renderLightsStep {M : Type} [Monoid M] (models : StdMap (ModelRender M))
    (acc : CategorizedLights M × ℤ × List GLCall)
    (entry : String × LightBase M) : CategorizedLights M × ℤ × List GLCall :=
  let l := entry.2
  let d := lightDetailsOf l
  let cat :=
    match l.shadowBufferType with
    | ShadowBufferType.SIMPLE => { acc.1 with simple := acc.1.simple ++ [d] }
    | ShadowBufferType.CUBE => { acc.1 with cube := acc.1.cube ++ [d] }
  let prog : ℤ × List GLCall :=
    if acc.2.1 ≠ (l.shaderId : ℤ) then ((l.shaderId : ℤ), [GLCall.useProgram l.shaderId])
    else (acc.2.1, [])
  (cat, prog.1,
    acc.2.2
      ++ [GLCall.bindFramebuffer l.shadowBufferId, GLCall.clearScreen]
      ++ prog.2
      ++ models.flatMap (fun p => shadowPassModelCalls l p.2)
      ++ [GLCall.bindFramebuffer 0])

/-- RenderManager::renderLights (render.cpp lines 177-265): switch to the
framebuffer viewport, set the clear color, then run the light loop over
the registered lights in identifier order; returns the categorized light
details and the submitted GL calls. -/
def renderLights {M : Type} [Monoid M] (s : RenderManagerState M) :
    CategorizedLights M × List GLCall :=
  let r := s.registeredLights.foldl (renderLightsStep s.registeredModels)
    (⟨[], []⟩, -1, [GLCall.switchFrameBufferViewport, GLCall.setClearColor])
  (r.1, r.2.2)

/-- The GL calls of one occupied simple-light slot of the main pass
(render.cpp lines 323-371): the slot's uniforms for the vertex and
fragment stages, then the shadow texture bound to unit i + 1 and the
sampler uniform simpleLightTextures[i] set to i + 1. -/
def simpleLightSlotCalls {M : Type} (i : ℕ) (d : LightDetails M) : List GLCall :=
  [GLCall.uniformNamed ("simpleLightDetails_vertex[" ++ toString i ++ "].lightPosition"),
   GLCall.uniformNamed ("simpleLightDetails_fragment[" ++ toString i ++ "].lightPosition"),
   GLCall.uniformNamed ("simpleLightDetails_vertex[" ++ toString i ++ "].lightVpMatrix"),
   GLCall.uniformNamed ("simpleLightDetails_fragment[" ++ toString i ++ "].lightVpMatrix"),
   GLCall.uniformNamed ("simpleLightDetails_vertex[" ++ toString i ++ "].lightColor"),
   GLCall.uniformNamed ("simpleLightDetails_fragment[" ++ toString i ++ "].lightColor"),
   GLCall.uniformNamed ("simpleLightDetails_vertex[" ++ toString i ++ "].lightIntensity"),
   GLCall.uniformNamed ("simpleLightDetails_fragment[" ++ toString i ++ "].lightIntensity"),
   GLCall.uniformInt ("simpleLightDetails_vertex[" ++ toString i ++ "].mapWidth") d.mapWidth,
   GLCall.uniformInt ("simpleLightDetails_fragment[" ++ toString i ++ "].mapWidth") d.mapWidth,
   GLCall.uniformInt ("simpleLightDetails_vertex[" ++ toString i ++ "].mapHeight") d.mapHeight,
   GLCall.uniformInt ("simpleLightDetails_fragment[" ++ toString i ++ "].mapHeight") d.mapHeight,
   GLCall.uniformNamed ("simpleLightDetails_vertex[" ++ toString i ++ "].nearPlane"),
   GLCall.uniformNamed ("simpleLightDetails_fragment[" ++ toString i ++ "].nearPlane"),
   GLCall.uniformNamed ("simpleLightDetails_vertex[" ++ toString i ++ "].farPlane"),
   GLCall.uniformNamed ("simpleLightDetails_fragment[" ++ toString i ++ "].farPlane"),
   GLCall.bindTexture (i + 1) TexTarget.twoD d.textureId,
   GLCall.uniformInt ("simpleLightTextures[" ++ toString i ++ "]") (i + 1)]

/-- The GL calls of one unused simple-light slot (render.cpp lines
372-378): the dead simple light's shadow texture bound to unit i + 1 and
the sampler uniform set to i + 1. -/
def simpleLightPlaceholderCalls (i : ℕ) (deadTextureId : ℕ) : List GLCall :=
  [GLCall.bindTexture (i + 1) TexTarget.twoD deadTextureId,
   GLCall.uniformInt ("simpleLightTextures[" ++ toString i ++ "]") (i + 1)]

/-- The GL calls of one occupied cube-light slot (render.cpp lines
380-428): the slot's uniforms, then the cube shadow texture bound to unit
i + 8 while the sampler uniform cubeLightTextures[i] is set to
simpleCount + i + 8 (render.cpp lines 425-427). -/
def cubeLightSlotCalls {M : Type} (simpleCount i : ℕ) (d : LightDetails M) :
    List GLCall :=
  [GLCall.uniformNamed ("cubeLightDetails_vertex[" ++ toString i ++ "].lightPosition"),
   GLCall.uniformNamed ("cubeLightDetails_fragment[" ++ toString i ++ "].lightPosition"),
   GLCall.uniformNamed ("cubeLightDetails_vertex[" ++ toString i ++ "].lightVpMatrix"),
   GLCall.uniformNamed ("cubeLightDetails_fragment[" ++ toString i ++ "].lightVpMatrix"),
   GLCall.uniformNamed ("cubeLightDetails_vertex[" ++ toString i ++ "].lightColor"),
   GLCall.uniformNamed ("cubeLightDetails_fragment[" ++ toString i ++ "].lightColor"),
   GLCall.uniformNamed ("cubeLightDetails_vertex[" ++ toString i ++ "].lightIntensity"),
   GLCall.uniformNamed ("cubeLightDetails_fragment[" ++ toString i ++ "].lightIntensity"),
   GLCall.uniformInt ("cubeLightDetails_vertex[" ++ toString i ++ "].mapWidth") d.mapWidth,
   GLCall.uniformInt ("cubeLightDetails_fragment[" ++ toString i ++ "].mapWidth") d.mapWidth,
   GLCall.uniformInt ("cubeLightDetails_vertex[" ++ toString i ++ "].mapHeight") d.mapHeight,
   GLCall.uniformInt ("cubeLightDetails_fragment[" ++ toString i ++ "].mapHeight") d.mapHeight,
   GLCall.uniformNamed ("cubeLightDetails_vertex[" ++ toString i ++ "].nearPlane"),
   GLCall.uniformNamed ("cubeLightDetails_fragment[" ++ toString i ++ "].nearPlane"),
   GLCall.uniformNamed ("cubeLightDetails_vertex[" ++ toString i ++ "].farPlane"),
   GLCall.uniformNamed ("cubeLightDetails_fragment[" ++ toString i ++ "].farPlane"),
   GLCall.bindTexture (i + 8) TexTarget.cubeMap d.textureId,
   GLCall.uniformInt ("cubeLightTextures[" ++ toString i ++ "]") (simpleCount + i + 8)]

/-- The GL calls of one unused cube-light slot (render.cpp lines 429-435):
the dead cube light's shadow texture bound to unit i + 8 while the sampler
uniform is set to simpleCount + i + 8. -/
def cubeLightPlaceholderCalls (simpleCount i deadTextureId : ℕ) : List GLCall :=
  [GLCall.bindTexture (i + 8) TexTarget.cubeMap deadTextureId,
   GLCall.uniformInt ("cubeLightTextures[" ++ toString i ++ "]") (simpleCount + i + 8)]

/-- The GL calls of one iteration of the model loop of renderModels
(render.cpp lines 289-445), after the shader-program cache check: the
matrix / time / ambient / light-count uniforms, the diffuse texture on
unit 0, the occupied simple-light slots, the unused simple slots filled up
to the hard-coded bound 7, the occupied cube slots, the unused cube slots
filled up to the hard-coded bound 8, the three vertex attributes, and the
draw into the default framebuffer. -/
def mainPassModelCalls {M : Type} (cat : CategorizedLights M)
    (deadSimpleTextureId deadCubeTextureId : ℕ) (m : ModelRender M) :
    List GLCall :=
  [GLCall.uniformNamed "modelDetails.modelMatrix",
   GLCall.uniformNamed "modelDetails.viewMatrix",
   GLCall.uniformNamed "modelDetails.projectionMatrix",
   GLCall.uniformNamed "modelDetails.mvpMatrix",
   GLCall.uniformNamed "timeDetails.totalTime",
   GLCall.uniformNamed "timeDetails.deltaTime",
   GLCall.uniformNamed "ambientFactor",
   GLCall.uniformInt "simpleLightsCount" cat.simple.length,
   GLCall.uniformInt "cubeLightsCount" cat.cube.length,
   GLCall.bindTexture 0 TexTarget.twoD m.textureId,
   GLCall.uniformInt "diffuseTexture" 0]
  ++ cat.simple.enum.flatMap (fun p => simpleLightSlotCalls p.1 p.2)
  ++ (List.range' cat.simple.length (7 - cat.simple.length)).flatMap
      (fun i => simpleLightPlaceholderCalls i deadSimpleTextureId)
  ++ cat.cube.enum.flatMap (fun p => cubeLightSlotCalls cat.simple.length p.1 p.2)
  ++ (List.range' cat.cube.length (8 - cat.cube.length)).flatMap
      (fun i => cubeLightPlaceholderCalls cat.simple.length i deadCubeTextureId)
  ++ [GLCall.enableAttribute m.vertexBufferId,
      GLCall.enableAttribute m.uvBufferId,
      GLCall.enableAttribute m.normalBufferId,
      GLCall.drawArrays 0 m.bufferSize]

/-- One iteration of the model loop of renderModels (render.cpp lines
281-446) including the shader-program cache check. -/
def renderModelsStep {M : Type} (cat : CategorizedLights M)
    (deadSimpleTextureId deadCubeTextureId : ℕ) (acc : ℤ × List GLCall)
    (entry : String × ModelRender M) : ℤ × List GLCall :=
  let m := entry.2
  let prog : ℤ × List GLCall :=
    if acc.1 ≠ (m.shaderId : ℤ) then ((m.shaderId : ℤ), [GLCall.useProgram m.shaderId])
    else (acc.1, [])
  (prog.1, acc.2 ++ prog.2 ++ mainPassModelCalls cat deadSimpleTextureId deadCubeTextureId m)

/-- RenderManager::renderModels (render.cpp lines 267-449): switch to the
window viewport, set the clear color, clear, then run the model loop over
the registered models in identifier order; finally advance lastTime to the
current time.  Returns the updated state and the submitted GL calls. -/
def renderModels {M : Type} (s : RenderManagerState M)
    (cat : CategorizedLights M) (currentTime : ℚ) :
    RenderManagerState M × List GLCall :=
  let r := s.registeredModels.foldl
    (renderModelsStep cat s.deadSimpleLight.shadowBufferTextureId
      s.deadCubeLight.shadowBufferTextureId)
    (-1, [GLCall.switchWindowViewport, GLCall.setClearColor, GLCall.clearScreen])
  ({ s with lastTime := currentTime }, r.2)

/-- RenderManager::render (render.cpp lines 451-455): the shadow pass
first, then the main pass consuming its categorized lights; the combined
call list is the shadow-pass calls followed by the main-pass calls. -/
def render {M : Type} [Monoid M] (s : RenderManagerState M)
    (currentTime : ℚ) : RenderManagerState M × List GLCall :=
  let lights := renderLights s
  let main := renderModels s lights.1 currentTime
  (main.1, lights.2 ++ main.2)

/-- Extraction (for the statements below): a 2D-target texture bind to a
shadow-map unit — the units ≥ 1; unit 0 is the diffuse slot. -/
@[simp] def simpleShadowBindOf : GLCall → Option (ℕ × ℕ)
  | GLCall.bindTexture (u + 1) TexTarget.twoD t => some (u + 1, t)
  | _ => none

/-- The (texture unit, texture id) pairs of the 2D-target shadow binds of a
call list, in order. -/
def simpleShadowBinds (calls : List GLCall) : List (ℕ × ℕ) :=
  calls.filterMap simpleShadowBindOf

/-- Extraction: a cube-map-target texture bind. -/
@[simp] def cubeShadowBindOf : GLCall → Option (ℕ × ℕ)
  | GLCall.bindTexture u TexTarget.cubeMap t => some (u, t)
  | _ => none

/-- The (texture unit, texture id) pairs of the cube-map-target texture
binds of a call list, in order. -/
def cubeShadowBinds (calls : List GLCall) : List (ℕ × ℕ) :=
  calls.filterMap cubeShadowBindOf

/-- Extraction: a draw call whose bound framebuffer is not the default
framebuffer 0 — a shadow-map producing draw. -/
@[simp] def shadowMapDrawOf : GLCall → Option (ℕ × ℕ)
  | GLCall.drawArrays (fb + 1) n => some (fb + 1, n)
  | _ => none

/-- The (framebuffer, vertex count) pairs of the non-default-framebuffer
draw calls of a call list, in order. -/
def shadowMapDraws (calls : List GLCall) : List (ℕ × ℕ) :=
  calls.filterMap shadowMapDrawOf

/-- Extraction: any texture bind (unit, target, texture id) — a call by
which a pass consumes a texture. -/
@[simp] def textureBindOf : GLCall → Option (ℕ × TexTarget × ℕ)
  | GLCall.bindTexture u tgt t => some (u, tgt, t)
  | _ => none

/-- All texture binds of a call list, in order. -/
def textureBinds (calls : List GLCall) : List (ℕ × TexTarget × ℕ) :=
  calls.filterMap textureBindOf

/-- A concrete SIMPLE light (matrix monoid Unit). -/
def sampleSimpleLight : LightBase Unit where
  lightId := "light1"
  lightPosition := ⟨0, 0, 0⟩
  lightColor := ⟨1, 1, 1⟩
  lightIntensity := 100
  nearPlane := 1
  farPlane := 100
  viewMatrices := [()]
  projectionMatrices := [()]
  shaderId := 9
  shadowBufferId := 5
  shadowBufferTextureId := 6
  shadowBufferType := ShadowBufferType.SIMPLE

/-- A concrete CUBE light. -/
def sampleCubeLight : LightBase Unit :=
  { sampleSimpleLight with
      lightId := "light2"
      viewMatrices := List.replicate 6 ()
      projectionMatrices := List.replicate 6 ()
      shaderId := 15
      shadowBufferId := 41
      shadowBufferTextureId := 42
      shadowBufferType := ShadowBufferType.CUBE }

/-- The dead SIMPLE placeholder light. -/
def deadSimpleSample : LightBase Unit :=
  { sampleSimpleLight with
      lightId := "deadSimple"
      shadowBufferId := 90
      shadowBufferTextureId := 91 }

/-- The dead CUBE placeholder light. -/
def deadCubeSample : LightBase Unit :=
  { sampleCubeLight with
      lightId := "deadCube"
      shadowBufferId := 92
      shadowBufferTextureId := 93 }

/-- A concrete model. -/
def modelA : ModelRender Unit where
  modelId := "model1"
  shaderId := 3
  textureId := 10
  vertexBufferId := 11
  uvBufferId := 12
  normalBufferId := 13
  bufferSize := 9
  modelMatrix := ()

/-- A second model with the same identifier as modelA but a different
texture. -/
def modelB : ModelRender Unit := { modelA with textureId := 20 }

/-- A concrete camera. -/
def sampleCamera : CameraBase Unit := ⟨"camera1", (), ()⟩

/-- A render-manager state with empty registries. -/
def rmEmpty : RenderManagerState Unit where
  activeCameraId := "camera1"
  deadSimpleLight := deadSimpleSample
  deadCubeLight := deadCubeSample
  registeredLights := []
  registeredModels := []
  registeredCameras := []
  startTime := 0
  lastTime := 0

/-- A render-manager state with one registered light, model and camera. -/
def rmOne : RenderManagerState Unit :=
  { rmEmpty with
      registeredLights := [("light1", sampleSimpleLight)]
      registeredModels := [("model1", modelA)]
      registeredCameras := [("camera1", sampleCamera)] }

/-- A render-manager state with one registered model and no lights. -/
def rmModelOnly : RenderManagerState Unit :=
  { rmEmpty with registeredModels := [("model1", modelA)] }

/-- The categorized lights of a frame with one simple and one cube light. -/
def catOneOne : CategorizedLights Unit :=
  ⟨[lightDetailsOf sampleSimpleLight], [lightDetailsOf sampleCubeLight]⟩

/-- A shot at z = -49.9 whose previous update started at time 0. -/
def shotNearBoundary : ShotState Unit where
  modelId := "shot1"
  position := ⟨0, 0, -499/10⟩
  lastTime := 0
  shotLight := none
  collider := ()

/-- A world holding only the shot of shotNearBoundary. -/
def worldNearBoundary : ShotWorld Unit where
  models := [("shot1", ⟨"Shot", ()⟩)]
  lights := []
  isShotLightPresent := false
  lastShotLightChange := -1
  shot := shotNearBoundary

/-- A shot whose collider (5) overlaps the first enemy's. -/
def shotColliding : ShotState ℕ where
  modelId := "shot1"
  position := ⟨0, 0, 0⟩
  lastTime := 0
  shotLight := none
  collider := 5

/-- A world with two enemies — the first overlapping the shot, the second
not — and the shot itself; the sample collision test is collider
equality. -/
def worldTwoEnemies : ShotWorld ℕ where
  models := [("enemy1", ⟨"Enemy", 5⟩), ("enemy2", ⟨"Enemy", 7⟩), ("shot1", ⟨"Shot", 5⟩)]
  lights := []
  isShotLightPresent := false
  lastShotLightChange := -1
  shot := shotColliding

/-- A world whose shot is already past the boundary (z = -51) and carries a
registered shot light. -/
def worldExpired : ShotWorld ℕ where
  models := [("enemy1", ⟨"Enemy", 3⟩), ("shot1", ⟨"Shot", 5⟩)]
  lights := [("shot1::ShotLight", ⟨0, 0, -49⟩)]
  isShotLightPresent := true
  lastShotLightChange := 0
  shot := { modelId := "shot1", position := ⟨0, 0, -51⟩, lastTime := 0,
            shotLight := some "shot1::ShotLight", collider := 5 }

/-- A world whose last accepted light toggle happened at time 10, with the
shot light present. -/
def worldRecentToggle : ShotWorld Unit where
  models := [("shot1", ⟨"Shot", ()⟩)]
  lights := [("shot1::ShotLight", ⟨0, 0, 0⟩)]
  isShotLightPresent := true
  lastShotLightChange := 10
  shot := { modelId := "shot1", position := ⟨0, 0, 0⟩, lastTime := 10,
            shotLight := some "shot1::ShotLight", collider := () }

theorem charListLt_irrefl : ∀ l : List Char, charListLt l l = false := by
  intro l
  induction l with
  | nil => rfl
  | cons a as ih => simp [charListLt, ih]

theorem strLt_irrefl (s : String) : strLt s s = false :=
  charListLt_irrefl s.data

theorem charListLt_asymm :
    ∀ l₁ l₂ : List Char, charListLt l₁ l₂ = true → charListLt l₂ l₁ = false := by
  intro l₁
  induction l₁ with
  | nil =>
    intro l₂ h
    cases l₂ with
    | nil => simp [charListLt] at h
    | cons b bs => rfl
  | cons a as ih =>
    intro l₂ h
    cases l₂ with
    | nil => simp [charListLt] at h
    | cons b bs =>
      by_cases hab : a.toNat < b.toNat
      · have hba : ¬ b.toNat < a.toNat := by omega
        simp [charListLt, hab, hba]
      · by_cases hba : b.toNat < a.toNat
        · simp [charListLt, hab, hba] at h
        · have hrec : charListLt as bs = true := by
            simpa [charListLt, hab, hba] using h
          simp [charListLt, hab, hba, ih bs hrec]

theorem strLt_asymm {a b : String} (h : strLt a b = true) : strLt b a = false :=
  charListLt_asymm a.data b.data h

theorem strLt_ne {a b : String} (h : strLt a b = true) : a ≠ b := by
  intro he
  subst he
  rw [strLt_irrefl] at h
  exact Bool.false_ne_true h

theorem StdMap.find_eq_some_mem {A : Type} (k : String) (v : A) :
    ∀ m : StdMap A, StdMap.find k m = some v → (k, v) ∈ m := by
  intro m
  induction m with
  | nil => intro h; simp [StdMap.find] at h
  | cons p rest ih =>
    obtain ⟨k₁, v₁⟩ := p
    intro h
    by_cases hk : k = k₁
    · subst hk
      simp [StdMap.find] at h
      subst h
      exact List.mem_cons_self _ _
    · have hrest : StdMap.find k rest = some v := by
        simpa [StdMap.find, hk] using h
      exact List.mem_cons_of_mem _ (ih hrest)

theorem StdMap.insert_of_find_some {A : Type} (k : String) (v v' : A) :
    ∀ m : StdMap A, StdMap.Sorted m → StdMap.find k m = some v →
      StdMap.insert k v' m = m := by
  intro m
  induction m with
  | nil => intro _ h; simp [StdMap.find] at h
  | cons p rest ih =>
    obtain ⟨k₁, v₁⟩ := p
    intro hs h
    rw [StdMap.Sorted, List.pairwise_cons] at hs
    by_cases hk : k = k₁
    · subst hk
      simp [StdMap.insert, strLt_irrefl]
    · have hrest : StdMap.find k rest = some v := by
        simpa [StdMap.find, hk] using h
      have hmem : (k, v) ∈ rest := StdMap.find_eq_some_mem k v rest hrest
      have hlt : strLt k₁ k = true := hs.1 (k, v) hmem
      have hnlt : strLt k k₁ = false := strLt_asymm hlt
      have hrec := ih hs.2 hrest
      simp [StdMap.insert, hnlt, hk, hrec]

theorem StdMap.erase_of_find_none {A : Type} (k : String) :
    ∀ m : StdMap A, StdMap.find k m = none → StdMap.erase k m = m := by
  intro m
  induction m with
  | nil => intro _; rfl
  | cons p rest ih =>
    obtain ⟨k₁, v₁⟩ := p
    intro h
    by_cases hk : k = k₁
    · subst hk; simp [StdMap.find] at h
    · have hrest : StdMap.find k rest = none := by
        simpa [StdMap.find, hk] using h
      have hne : (k₁ != k) = true := bne_iff_ne.mpr (Ne.symm hk)
      have hrec := ih hrest
      simp only [StdMap.erase] at hrec ⊢
      simp [List.filter_cons, hne, hrec]

theorem StdMap.erase_erase {A : Type} (k : String) (m : StdMap A) :
    StdMap.erase k (StdMap.erase k m) = StdMap.erase k m := by
  induction m with
  | nil => rfl
  | cons p rest ih =>
    obtain ⟨k₁, v₁⟩ := p
    by_cases hk : k₁ = k
    · subst hk
      simp only [StdMap.erase] at ih ⊢
      simp [List.filter_cons, ih]
    · have hne : (k₁ != k) = true := bne_iff_ne.mpr hk
      have hrec := ih
      simp only [StdMap.erase] at hrec ⊢
      simp [List.filter_cons, hne, hrec]

theorem StdMap.find_erase_self {A : Type} (k : String) (m : StdMap A) :
    StdMap.find k (StdMap.erase k m) = none := by
  induction m with
  | nil => rfl
  | cons p rest ih =>
    obtain ⟨k₁, v₁⟩ := p
    by_cases hk : k = k₁
    · subst hk
      simpa [StdMap.erase, List.filter_cons] using ih
    · have hne : (k₁ != k) = true := bne_iff_ne.mpr (Ne.symm hk)
      have hrec := ih
      simp only [StdMap.erase] at hrec ⊢
      simp [List.filter_cons, hne, StdMap.find, hk, hrec]

theorem StdMap.find_erase_ne {A : Type} (k k' : String) (h : k ≠ k')
    (m : StdMap A) : StdMap.find k (StdMap.erase k' m) = StdMap.find k m := by
  induction m with
  | nil => rfl
  | cons p rest ih =>
    obtain ⟨k₁, v₁⟩ := p
    by_cases hk1 : k₁ = k'
    · subst hk1
      have hk : k ≠ k₁ := h
      simp only [StdMap.erase] at ih ⊢
      simp [List.filter_cons, StdMap.find, hk, ih]
    · have hne : (k₁ != k') = true := bne_iff_ne.mpr hk1
      simp only [StdMap.erase] at ih ⊢
      by_cases hk : k = k₁ <;> simp [List.filter_cons, hne, StdMap.find, hk, ih]

/-- C1 counterexample: registering modelB, whose identifier "model1" is
already held by modelA, does not replace the prior entry — the subsequent
lookup still returns modelA rather than the newly registered modelB,
because std::map::insert keeps the existing element. -/
theorem registerModel_duplicate_keeps_first :
    StdMap.find "model1"
        (((rmEmpty.registerModel modelA).registerModel modelB).registeredModels)
      = some modelA ∧ modelA ≠ modelB := by
  decide

/-- C1 amended: for every registry (lights, models, cameras) and every
entity whose identifier already has an entry, calling register with that
entity is a silent no-op that keeps the prior entry (first write wins):
the state is unchanged and a subsequent lookup returns the previously
registered entity, with no error reported. -/
theorem register_duplicate_keeps_prior {M : Type} (s : RenderManagerState M)
    (l : LightBase M) (m : ModelRender M) (c : CameraBase M)
    (l' : LightBase M) (m' : ModelRender M) (c' : CameraBase M)
    (hsl : StdMap.Sorted s.registeredLights)
    (hsm : StdMap.Sorted s.registeredModels)
    (hsc : StdMap.Sorted s.registeredCameras)
    (hfl : StdMap.find l.lightId s.registeredLights = some l')
    (hfm : StdMap.find m.modelId s.registeredModels = some m')
    (hfc : StdMap.find c.cameraId s.registeredCameras = some c') :
    s.registerLight l = s ∧ s.registerModel m = s ∧ s.registerCamera c = s ∧
    StdMap.find l.lightId (s.registerLight l).registeredLights = some l' ∧
    StdMap.find m.modelId (s.registerModel m).registeredModels = some m' ∧
    StdMap.find c.cameraId (s.registerCamera c).registeredCameras = some c' := by
  have h1 := StdMap.insert_of_find_some l.lightId l' l _ hsl hfl
  have h2 := StdMap.insert_of_find_some m.modelId m' m _ hsm hfm
  have h3 := StdMap.insert_of_find_some c.cameraId c' c _ hsc hfc
  refine ⟨?_, ?_, ?_, ?_, ?_, ?_⟩ <;>
    simp [RenderManagerState.registerLight, RenderManagerState.registerModel,
      RenderManagerState.registerCamera, h1, h2, h3, hfl, hfm, hfc]

/-- C1 witness: duplicate registration on a concrete one-entry state. -/
theorem register_duplicate_keeps_prior_witness :
    rmOne.registerModel modelB = rmOne ∧
    StdMap.find "model1" (rmOne.registerModel modelB).registeredModels
      = some modelA := by
  have h := register_duplicate_keeps_prior rmOne sampleSimpleLight modelB
    sampleCamera sampleSimpleLight modelA sampleCamera
    (by decide) (by decide) (by decide) (by decide) (by decide) (by decide)
  exact ⟨h.2.1, h.2.2.2.2.1⟩

/-- C8: deregistering an identifier absent from every registry leaves the
render-manager state unchanged and reports no error, and deregistering the
same identifier twice equals deregistering it once (idempotence), for the
light, model and camera registries alike. -/
theorem deregister_absent_noop_idempotent {M : Type}
    (s : RenderManagerState M) (entityId : String)
    (hl : StdMap.find entityId s.registeredLights = none)
    (hm : StdMap.find entityId s.registeredModels = none)
    (hc : StdMap.find entityId s.registeredCameras = none) :
    (s.deregisterLight entityId = s ∧ s.deregisterModel entityId = s ∧
     s.deregisterCamera entityId = s) ∧
    ((s.deregisterLight entityId).deregisterLight entityId
        = s.deregisterLight entityId ∧
     (s.deregisterModel entityId).deregisterModel entityId
        = s.deregisterModel entityId ∧
     (s.deregisterCamera entityId).deregisterCamera entityId
        = s.deregisterCamera entityId) := by
  refine ⟨⟨?_, ?_, ?_⟩, ?_, ?_, ?_⟩ <;>
    simp [RenderManagerState.deregisterLight, RenderManagerState.deregisterModel,
      RenderManagerState.deregisterCamera, StdMap.erase_of_find_none _ _ hl,
      StdMap.erase_of_find_none _ _ hm, StdMap.erase_of_find_none _ _ hc,
      StdMap.erase_erase]

/-- C8 witness: deregistering the absent identifier "zzz" on a concrete
one-entry state. -/
theorem deregister_absent_noop_idempotent_witness :
    rmOne.deregisterModel "zzz" = rmOne ∧
    (rmOne.deregisterLight "zzz").deregisterLight "zzz"
      = rmOne.deregisterLight "zzz" := by
  have h := deregister_absent_noop_idempotent rmOne "zzz"
    (by decide) (by decide) (by decide)
  exact ⟨h.1.2.1, h.2.1⟩

theorem updateShotLight_preserves {C : Type} (w : ShotWorld C) :
    (updateShotLight w).models = w.models ∧
    (updateShotLight w).isShotLightPresent = w.isShotLightPresent ∧
    (updateShotLight w).lastShotLightChange = w.lastShotLightChange ∧
    (updateShotLight w).shot.modelId = w.shot.modelId ∧
    (updateShotLight w).shot.position = w.shot.position ∧
    (updateShotLight w).shot.collider = w.shot.collider ∧
    (updateShotLight w).shot.lastTime = w.shot.lastTime := by
  by_cases h1 : w.isShotLightPresent
  · by_cases h2 : w.shot.shotLight = none
    · simp [updateShotLight, createShotLight, destroyShotLight, h1, h2]
    · obtain ⟨l, hl⟩ := Option.ne_none_iff_exists'.mp h2
      simp [updateShotLight, h1, h2, hl]
  · by_cases h2 : w.shot.shotLight = none
    · simp [updateShotLight, h1, h2]
    · obtain ⟨l, hl⟩ := Option.ne_none_iff_exists'.mp h2
      simp [updateShotLight, destroyShotLight, h1, h2, hl]

theorem updateShotLight_models {C : Type} (w : ShotWorld C) :
    (updateShotLight w).models = w.models :=
  (updateShotLight_preserves w).1

theorem updateShotLight_flag {C : Type} (w : ShotWorld C) :
    (updateShotLight w).isShotLightPresent = w.isShotLightPresent :=
  (updateShotLight_preserves w).2.1

theorem updateShotLight_lastChange {C : Type} (w : ShotWorld C) :
    (updateShotLight w).lastShotLightChange = w.lastShotLightChange :=
  (updateShotLight_preserves w).2.2.1

theorem updateShotLight_modelId {C : Type} (w : ShotWorld C) :
    (updateShotLight w).shot.modelId = w.shot.modelId :=
  (updateShotLight_preserves w).2.2.2.1

theorem updateShotLight_position {C : Type} (w : ShotWorld C) :
    (updateShotLight w).shot.position = w.shot.position :=
  (updateShotLight_preserves w).2.2.2.2.1

theorem updateShotLight_collider {C : Type} (w : ShotWorld C) :
    (updateShotLight w).shot.collider = w.shot.collider :=
  (updateShotLight_preserves w).2.2.2.2.2.1

theorem shotCollisionScan_no_enemy {C : Type} (collides : C → C → Bool)
    (shot : ShotState C) (models : StdMap (GameModel C)) :
    ∀ snapshot : List (String × GameModel C),
      (∀ p ∈ snapshot, (p : String × GameModel C).2.modelName ≠ "Enemy") →
      shotCollisionScan collides shot models snapshot = models := by
  intro snapshot
  induction snapshot with
  | nil => intro _; rfl
  | cons p rest ih =>
    obtain ⟨pid, pgm⟩ := p
    intro h
    have hname : pgm.modelName ≠ "Enemy" := h (pid, pgm) (List.mem_cons_self _ _)
    simp only [shotCollisionScan, if_neg hname]
    exact ih (fun q hq => h q (List.mem_cons_of_mem _ hq))

theorem shotCollisionScan_first_hit {C : Type} (collides : C → C → Bool)
    (shot : ShotState C) (models : StdMap (GameModel C)) (mid : String)
    (gm : GameModel C) (post : List (String × GameModel C)) :
    ∀ pre : List (String × GameModel C),
      (∀ p ∈ pre, ¬((p : String × GameModel C).2.modelName = "Enemy" ∧
          collides shot.collider p.2.collider = true)) →
      gm.modelName = "Enemy" → collides shot.collider gm.collider = true →
      shotCollisionScan collides shot models (pre ++ (mid, gm) :: post)
        = StdMap.erase shot.modelId (StdMap.erase mid models) := by
  intro pre
  induction pre with
  | nil =>
    intro _ hname hcol
    simp [shotCollisionScan, hname, hcol]
  | cons p pre' ih =>
    obtain ⟨pid, pgm⟩ := p
    intro hpre hname hcol
    have hp := hpre (pid, pgm) (List.mem_cons_self _ _)
    by_cases h1 : pgm.modelName = "Enemy"
    · have h2 : collides shot.collider pgm.collider = false := by
        rcases Bool.eq_false_or_eq_true (collides shot.collider pgm.collider) with h | h
        · exact absurd ⟨h1, h⟩ hp
        · exact h
      have hrest := ih (fun q hq => hpre q (List.mem_cons_of_mem _ hq)) hname hcol
      simp [shotCollisionScan, h1, h2, hrest]
    · have hrest := ih (fun q hq => hpre q (List.mem_cons_of_mem _ hq)) hname hcol
      simp [shotCollisionScan, h1, hrest]

theorem shot_update_live {C : Type} (collides : C → C → Bool) (keyH : Bool)
    (t : ℚ) (w : ShotWorld C) (hz : ¬ w.shot.position.z < -50) :
    ∃ w₃ : ShotWorld C,
      ShotModel.update collides keyH t w
          = { w₃ with
                models := shotCollisionScan collides w₃.shot w₃.models w₃.models
                shot := { w₃.shot with lastTime := t } } ∧
      w₃.models = w.models ∧
      w₃.isShotLightPresent
          = (if keyH ∧ t - w.lastShotLightChange > 1/2
             then !w.isShotLightPresent else w.isShotLightPresent) ∧
      w₃.lastShotLightChange
          = (if keyH ∧ t - w.lastShotLightChange > 1/2
             then t else w.lastShotLightChange) ∧
      w₃.shot.modelId = w.shot.modelId ∧
      w₃.shot.collider = w.shot.collider ∧
      w₃.shot.position.z = w.shot.position.z - 100 * (t - w.shot.lastTime) := by
  set w₁ := (if keyH ∧ t - w.lastShotLightChange > 1/2 then
      { w with isShotLightPresent := !w.isShotLightPresent
               lastShotLightChange := t }
    else w) with hw₁
  set w₂ := { w₁ with shot := { w₁.shot with position :=
      { w₁.shot.position with
          z := w₁.shot.position.z - 100 * (t - w.shot.lastTime) } } } with hw₂
  refine ⟨updateShotLight w₂, ?_, ?_, ?_, ?_, ?_, ?_, ?_⟩
  · show ShotModel.update collides keyH t w = _
    simp only [ShotModel.update]
    rw [if_neg hz]
  · rw [updateShotLight_models, hw₂]
    show w₁.models = w.models
    rw [hw₁]
    split <;> rfl
  · rw [updateShotLight_flag, hw₂]
    show w₁.isShotLightPresent = _
    rw [hw₁]
    by_cases htog : keyH ∧ t - w.lastShotLightChange > 1/2
    · rw [if_pos htog, if_pos htog]
    · rw [if_neg htog, if_neg htog]
  · rw [updateShotLight_lastChange, hw₂]
    show w₁.lastShotLightChange = _
    rw [hw₁]
    by_cases htog : keyH ∧ t - w.lastShotLightChange > 1/2
    · rw [if_pos htog, if_pos htog]
    · rw [if_neg htog, if_neg htog]
  · rw [updateShotLight_modelId, hw₂]
    show w₁.shot.modelId = w.shot.modelId
    rw [hw₁]
    split <;> rfl
  · rw [updateShotLight_collider, hw₂]
    show w₁.shot.collider = w.shot.collider
    rw [hw₁]
    split <;> rfl
  · rw [updateShotLight_position, hw₂]
    show w₁.shot.position.z - 100 * (t - w.shot.lastTime) = _
    have hzp : w₁.shot.position.z = w.shot.position.z := by
      rw [hw₁]; split <;> rfl
    rw [hzp]

/-- C9: for a shot already beyond the boundary (z < -50) at the start of an
update call, that call deregisters the shot from the model registry and
performs no further side effects: the whole state is the old one with only
the shot's registry entry erased (position not advanced, lights and the
shot-light pointer untouched, toggle flag and its timestamp unchanged),
and every other model's registry entry is preserved. -/
theorem shot_update_expired_early_return {C : Type} (collides : C → C → Bool)
    (keyH : Bool) (currentTime : ℚ) (w : ShotWorld C)
    (hz : w.shot.position.z < -50) :
    ShotModel.update collides keyH currentTime w
        = { w with models := StdMap.erase w.shot.modelId w.models } ∧
    ∀ k, k ≠ w.shot.modelId →
      StdMap.find k (ShotModel.update collides keyH currentTime w).models
        = StdMap.find k w.models := by
  constructor
  · simp [ShotModel.update, hz]
  · intro k hk
    simp [ShotModel.update, hz, StdMap.find_erase_ne k w.shot.modelId hk]

/-- C9 witness: a concrete expired shot (z = -51) with a registered shot
light and another registered model. -/
theorem shot_update_expired_early_return_witness :
    ShotModel.update (fun a b => a == b) true 1 worldExpired
        = { worldExpired with
              models := StdMap.erase "shot1" worldExpired.models } ∧
    StdMap.find "enemy1"
        (ShotModel.update (fun a b => a == b) true 1 worldExpired).models
      = StdMap.find "enemy1" worldExpired.models := by
  have h := shot_update_expired_early_return (fun a b => a == b) true 1
    worldExpired (by decide)
  exact ⟨h.1, h.2 "enemy1" (by decide)⟩

/-- C7: when an update call happens within 0.5 seconds of the last accepted
light toggle, the call neither flips the attached-light flag nor updates
the last-toggle timestamp, whether or not the toggle key is pressed; in
particular a second toggle attempt 0.4 seconds after an accepted one has
no effect. -/
theorem shot_update_debounce {C : Type} (collides : C → C → Bool)
    (keyH : Bool) (currentTime : ℚ) (w : ShotWorld C)
    (hdeb : currentTime - w.lastShotLightChange ≤ 1/2) :
    (ShotModel.update collides keyH currentTime w).isShotLightPresent
        = w.isShotLightPresent ∧
    (ShotModel.update collides keyH currentTime w).lastShotLightChange
        = w.lastShotLightChange := by
  have hnot : ¬ (keyH ∧ currentTime - w.lastShotLightChange > 1/2) := by
    rintro ⟨-, hgt⟩
    exact absurd hdeb (not_le_of_gt hgt)
  by_cases hz : w.shot.position.z < -50
  · constructor <;> simp [ShotModel.update, hz]
  · obtain ⟨w₃, hupd, -, hflag, hlc, -, -, -⟩ :=
      shot_update_live collides keyH currentTime w hz
    rw [hupd]
    constructor
    · show w₃.isShotLightPresent = _
      rw [hflag, if_neg hnot]
    · show w₃.lastShotLightChange = _
      rw [hlc, if_neg hnot]

/-- C7 witness: a toggle attempt 0.4 seconds (at time 52/5) after the last
accepted toggle (at time 10) takes no effect. -/
theorem shot_update_debounce_witness :
    (ShotModel.update (fun _ _ => true) true (52/5) worldRecentToggle).isShotLightPresent
        = worldRecentToggle.isShotLightPresent ∧
    (ShotModel.update (fun _ _ => true) true (52/5) worldRecentToggle).lastShotLightChange
        = worldRecentToggle.lastShotLightChange :=
  shot_update_debounce (fun _ _ => true) true (52/5) worldRecentToggle
    (by norm_num [worldRecentToggle])

/-- C2 counterexample: the concrete shot at z = -49.9 updated with
deltaTime = 1/500 moves to z = -50.1, past the -50 boundary, but is NOT
deregistered from the model registry during that same call — the lookup
after the call still returns it, refuting the claimed same-call
deregistration (the boundary check runs before the move, on the position
the shot had at the start of the call). -/
theorem shot_not_deregistered_same_call :
    (ShotModel.update (fun _ _ => false) false (1/500) worldNearBoundary).shot.position.z
        = -501/10 ∧
    StdMap.find "shot1"
        (ShotModel.update (fun _ _ => false) false (1/500) worldNearBoundary).models
      = some ⟨"Shot", ()⟩ := by
  have hz : ¬ worldNearBoundary.shot.position.z < -50 := by
    norm_num [worldNearBoundary, shotNearBoundary]
  obtain ⟨w₃, hupd, hm, -, -, -, -, hposz⟩ :=
    shot_update_live (fun _ _ => false) false (1/500) worldNearBoundary hz
  constructor
  · rw [hupd]
    show w₃.shot.position.z = _
    rw [hposz]
    norm_num [worldNearBoundary, shotNearBoundary]
  · rw [hupd]
    show StdMap.find "shot1"
        (shotCollisionScan (fun _ _ => false) w₃.shot w₃.models w₃.models) = _
    rw [hm]
    rw [shotCollisionScan_no_enemy (fun _ _ => false) w₃.shot
      worldNearBoundary.models worldNearBoundary.models (by decide)]
    decide

/-- C2 amended: a shot at z = -49.9 updated with deltaTime = 1/500 and the
hard-coded velocity 100 moves to z = -50.1, past the -50 boundary, but
remains registered after that call (when no Enemy collision fires); it is
the NEXT update call that deregisters it, after which the lookup returns
nothing. -/
theorem shot_boundary_crossing_next_call {C : Type} (collides : C → C → Bool)
    (keyH keyH₂ : Bool) (t t₂ : ℚ) (w : ShotWorld C)
    (hz : w.shot.position.z = -499/10)
    (hdt : t - w.shot.lastTime = 1/500)
    (henemy : ∀ p ∈ w.models, (p : String × GameModel C).2.modelName ≠ "Enemy") :
    (ShotModel.update collides keyH t w).shot.position.z = -501/10 ∧
    (ShotModel.update collides keyH t w).models = w.models ∧
    StdMap.find w.shot.modelId
        (ShotModel.update collides keyH₂ t₂
          (ShotModel.update collides keyH t w)).models = none := by
  have hz' : ¬ w.shot.position.z < -50 := by rw [hz]; norm_num
  obtain ⟨w₃, hupd, hm, -, -, hid, -, hposz⟩ := shot_update_live collides keyH t w hz'
  have hz1 : (ShotModel.update collides keyH t w).shot.position.z = -501/10 := by
    rw [hupd]
    show w₃.shot.position.z = _
    rw [hposz, hz, hdt]
    norm_num
  have hm1 : (ShotModel.update collides keyH t w).models = w.models := by
    rw [hupd]
    show shotCollisionScan collides w₃.shot w₃.models w₃.models = _
    rw [hm]
    exact shotCollisionScan_no_enemy collides w₃.shot w.models w.models henemy
  have hid1 : (ShotModel.update collides keyH t w).shot.modelId = w.shot.modelId := by
    rw [hupd]
    show w₃.shot.modelId = _
    exact hid
  refine ⟨hz1, hm1, ?_⟩
  have hz2 : (ShotModel.update collides keyH t w).shot.position.z < -50 := by
    rw [hz1]; norm_num
  generalize hu : ShotModel.update collides keyH t w = u at hz2 hid1 hm1
  simp only [ShotModel.update]
  rw [if_pos hz2]
  show StdMap.find w.shot.modelId (StdMap.erase u.shot.modelId u.models) = none
  rw [hid1]
  exact StdMap.find_erase_self _ _

/-- C2 witness: the amended behavior at the concrete near-boundary world:
still registered after the first call, gone after the second. -/
theorem shot_boundary_crossing_next_call_witness :
    (ShotModel.update (fun _ _ => false) false (1/500) worldNearBoundary).models
        = worldNearBoundary.models ∧
    StdMap.find "shot1"
        (ShotModel.update (fun _ _ => false) false 1
          (ShotModel.update (fun _ _ => false) false (1/500) worldNearBoundary)).models
      = none := by
  have h := shot_boundary_crossing_next_call (fun _ _ => false) false false
    (1/500) 1 worldNearBoundary
    (by norm_num [worldNearBoundary, shotNearBoundary])
    (by norm_num [worldNearBoundary, shotNearBoundary])
    (by decide)
  exact ⟨h.2.1, h.2.2⟩

/-- C6: during a live shot's update, the registry snapshot is scanned in
identifier order for models named "Enemy"; at the first one whose collider
collides with the shot's, both that enemy and the shot are deregistered
and the scan stops, so exactly those two entries are removed — every other
model, including any later non-overlapping "Enemy", keeps its registry
entry. -/
theorem shot_update_first_collision_only {C : Type} (collides : C → C → Bool)
    (keyH : Bool) (t : ℚ) (w : ShotWorld C)
    (hz : ¬ w.shot.position.z < -50)
    (pre post : List (String × GameModel C)) (mid : String) (gm : GameModel C)
    (hsplit : w.models = pre ++ (mid, gm) :: post)
    (hpre : ∀ p ∈ pre, ¬((p : String × GameModel C).2.modelName = "Enemy" ∧
        collides w.shot.collider p.2.collider = true))
    (hname : gm.modelName = "Enemy")
    (hcol : collides w.shot.collider gm.collider = true) :
    (ShotModel.update collides keyH t w).models
        = StdMap.erase w.shot.modelId (StdMap.erase mid w.models) ∧
    ∀ k, k ≠ mid → k ≠ w.shot.modelId →
      StdMap.find k (ShotModel.update collides keyH t w).models
        = StdMap.find k w.models := by
  obtain ⟨w₃, hupd, hm, -, -, hid, hcoll, -⟩ := shot_update_live collides keyH t w hz
  have hpre' : ∀ p ∈ pre, ¬((p : String × GameModel C).2.modelName = "Enemy" ∧
      collides w₃.shot.collider p.2.collider = true) := by
    intro p hp hand
    refine hpre p hp ⟨hand.1, ?_⟩
    rw [← hcoll]
    exact hand.2
  have hcol' : collides w₃.shot.collider gm.collider = true := by
    rw [hcoll]; exact hcol
  have hmain : (ShotModel.update collides keyH t w).models
      = StdMap.erase w.shot.modelId (StdMap.erase mid w.models) := by
    rw [hupd]
    show shotCollisionScan collides w₃.shot w₃.models w₃.models = _
    rw [hm, hsplit]
    rw [shotCollisionScan_first_hit collides w₃.shot (pre ++ (mid, gm) :: post)
      mid gm post pre hpre' hname hcol']
    rw [hid]
  refine ⟨hmain, ?_⟩
  intro k hk1 hk2
  rw [hmain, StdMap.find_erase_ne k w.shot.modelId hk2,
    StdMap.find_erase_ne k mid hk1]

/-- C6 witness: the first enemy overlaps and is removed together with the
shot; the later non-overlapping enemy stays registered. -/
theorem shot_update_first_collision_only_witness :
    (ShotModel.update (fun a b => a == b) false 1 worldTwoEnemies).models
        = StdMap.erase "shot1" (StdMap.erase "enemy1" worldTwoEnemies.models) ∧
    StdMap.find "enemy2"
        (ShotModel.update (fun a b => a == b) false 1 worldTwoEnemies).models
      = StdMap.find "enemy2" worldTwoEnemies.models := by
  have h := shot_update_first_collision_only (fun a b => a == b) false 1
    worldTwoEnemies (by decide) [] [("enemy2", ⟨"Enemy", 7⟩), ("shot1", ⟨"Shot", 5⟩)]
    "enemy1" ⟨"Enemy", 5⟩ rfl (by decide) rfl (by decide)
  exact ⟨h.1, h.2 "enemy2" (by decide) (by decide)⟩

theorem filterMap_flatMap_eq {α β γ : Type _} (l : List α) (g : α → List β)
    (f : β → Option γ) :
    (l.flatMap g).filterMap f = l.flatMap (fun a => (g a).filterMap f) := by
  induction l with
  | nil => rfl
  | cons a l ih => simp [List.flatMap_cons, List.filterMap_append, ih]

theorem flatMap_singleton_eq_map {α β : Type _} (l : List α) (g : α → β) :
    l.flatMap (fun a => [g a]) = l.map g := by
  induction l with
  | nil => rfl
  | cons a l ih => simp [ih]

theorem flatMap_const_nil {α β : Type _} (l : List α) :
    l.flatMap (fun _ => ([] : List β)) = [] := by
  induction l with
  | nil => rfl
  | cons a l ih => simp [ih]

theorem simpleShadowBinds_slotCalls {M : Type} (i : ℕ) (d : LightDetails M) :
    simpleShadowBinds (simpleLightSlotCalls i d) = [(i + 1, d.textureId)] := by
  simp [simpleShadowBinds, simpleShadowBindOf, simpleLightSlotCalls]

theorem simpleShadowBinds_placeholderCalls (i deadTextureId : ℕ) :
    simpleShadowBinds (simpleLightPlaceholderCalls i deadTextureId)
      = [(i + 1, deadTextureId)] := by
  simp [simpleShadowBinds, simpleShadowBindOf, simpleLightPlaceholderCalls]

theorem simpleShadowBinds_cubeSlotCalls {M : Type} (s i : ℕ) (d : LightDetails M) :
    simpleShadowBinds (cubeLightSlotCalls s i d) = [] := by
  simp [simpleShadowBinds, simpleShadowBindOf, cubeLightSlotCalls]

theorem simpleShadowBinds_cubePlaceholderCalls (s i deadTextureId : ℕ) :
    simpleShadowBinds (cubeLightPlaceholderCalls s i deadTextureId) = [] := by
  simp [simpleShadowBinds, simpleShadowBindOf, cubeLightPlaceholderCalls]

theorem cubeShadowBinds_slotCalls {M : Type} (i : ℕ) (d : LightDetails M) :
    cubeShadowBinds (simpleLightSlotCalls i d) = [] := by
  simp [cubeShadowBinds, cubeShadowBindOf, simpleLightSlotCalls]

theorem cubeShadowBinds_placeholderCalls (i deadTextureId : ℕ) :
    cubeShadowBinds (simpleLightPlaceholderCalls i deadTextureId) = [] := by
  simp [cubeShadowBinds, cubeShadowBindOf, simpleLightPlaceholderCalls]

theorem cubeShadowBinds_cubeSlotCalls {M : Type} (s i : ℕ) (d : LightDetails M) :
    cubeShadowBinds (cubeLightSlotCalls s i d) = [(i + 8, d.textureId)] := by
  simp [cubeShadowBinds, cubeShadowBindOf, cubeLightSlotCalls]

theorem cubeShadowBinds_cubePlaceholderCalls (s i deadTextureId : ℕ) :
    cubeShadowBinds (cubeLightPlaceholderCalls s i deadTextureId)
      = [(i + 8, deadTextureId)] := by
  simp [cubeShadowBinds, cubeShadowBindOf, cubeLightPlaceholderCalls]

theorem simpleShadowBinds_mainPass {M : Type} (cat : CategorizedLights M)
    (dS dC : ℕ) (m : ModelRender M) :
    simpleShadowBinds (mainPassModelCalls cat dS dC m)
      = cat.simple.enum.map (fun p => (p.1 + 1, p.2.textureId))
        ++ (List.range' cat.simple.length (7 - cat.simple.length)).map
            (fun i => (i + 1, dS)) := by
  simp only [mainPassModelCalls, simpleShadowBinds, List.filterMap_append,
    filterMap_flatMap_eq]
  rw [show (List.filterMap _
      [GLCall.uniformNamed "modelDetails.modelMatrix",
       GLCall.uniformNamed "modelDetails.viewMatrix",
       GLCall.uniformNamed "modelDetails.projectionMatrix",
       GLCall.uniformNamed "modelDetails.mvpMatrix",
       GLCall.uniformNamed "timeDetails.totalTime",
       GLCall.uniformNamed "timeDetails.deltaTime",
       GLCall.uniformNamed "ambientFactor",
       GLCall.uniformInt "simpleLightsCount" cat.simple.length,
       GLCall.uniformInt "cubeLightsCount" cat.cube.length,
       GLCall.bindTexture 0 TexTarget.twoD m.textureId,
       GLCall.uniformInt "diffuseTexture" 0]) = [] from by simp]
  simp only [show (fun p : ℕ × LightDetails M =>
      List.filterMap _ (simpleLightSlotCalls p.1 p.2))
      = fun p => [(p.1 + 1, p.2.textureId)] from
    funext fun p => simpleShadowBinds_slotCalls p.1 p.2]
  simp only [show (fun a : ℕ => List.filterMap _ (simpleLightPlaceholderCalls a dS))
      = fun a => [(a + 1, dS)] from
    funext fun a => simpleShadowBinds_placeholderCalls a dS]
  simp only [show (fun p : ℕ × LightDetails M =>
      List.filterMap _ (cubeLightSlotCalls cat.simple.length p.1 p.2))
      = fun p => ([] : List (ℕ × ℕ)) from
    funext fun p => simpleShadowBinds_cubeSlotCalls cat.simple.length p.1 p.2]
  simp only [show (fun a : ℕ =>
      List.filterMap _ (cubeLightPlaceholderCalls cat.simple.length a dC))
      = fun a => ([] : List (ℕ × ℕ)) from
    funext fun a => simpleShadowBinds_cubePlaceholderCalls cat.simple.length a dC]
  simp [flatMap_singleton_eq_map, flatMap_const_nil]

theorem cubeShadowBinds_mainPass {M : Type} (cat : CategorizedLights M)
    (dS dC : ℕ) (m : ModelRender M) :
    cubeShadowBinds (mainPassModelCalls cat dS dC m)
      = cat.cube.enum.map (fun p => (p.1 + 8, p.2.textureId))
        ++ (List.range' cat.cube.length (8 - cat.cube.length)).map
            (fun i => (i + 8, dC)) := by
  simp only [mainPassModelCalls, cubeShadowBinds, List.filterMap_append,
    filterMap_flatMap_eq]
  rw [show (List.filterMap _
      [GLCall.uniformNamed "modelDetails.modelMatrix",
       GLCall.uniformNamed "modelDetails.viewMatrix",
       GLCall.uniformNamed "modelDetails.projectionMatrix",
       GLCall.uniformNamed "modelDetails.mvpMatrix",
       GLCall.uniformNamed "timeDetails.totalTime",
       GLCall.uniformNamed "timeDetails.deltaTime",
       GLCall.uniformNamed "ambientFactor",
       GLCall.uniformInt "simpleLightsCount" cat.simple.length,
       GLCall.uniformInt "cubeLightsCount" cat.cube.length,
       GLCall.bindTexture 0 TexTarget.twoD m.textureId,
       GLCall.uniformInt "diffuseTexture" 0]) = [] from by simp]
  simp only [show (fun p : ℕ × LightDetails M =>
      List.filterMap _ (simpleLightSlotCalls p.1 p.2))
      = fun p => ([] : List (ℕ × ℕ)) from
    funext fun p => cubeShadowBinds_slotCalls p.1 p.2]
  simp only [show (fun a : ℕ => List.filterMap _ (simpleLightPlaceholderCalls a dS))
      = fun a => ([] : List (ℕ × ℕ)) from
    funext fun a => cubeShadowBinds_placeholderCalls a dS]
  simp only [show (fun p : ℕ × LightDetails M =>
      List.filterMap _ (cubeLightSlotCalls cat.simple.length p.1 p.2))
      = fun p => [(p.1 + 8, p.2.textureId)] from
    funext fun p => cubeShadowBinds_cubeSlotCalls cat.simple.length p.1 p.2]
  simp only [show (fun a : ℕ =>
      List.filterMap _ (cubeLightPlaceholderCalls cat.simple.length a dC))
      = fun a => [(a + 8, dC)] from
    funext fun a => cubeShadowBinds_cubePlaceholderCalls cat.simple.length a dC]
  simp [flatMap_singleton_eq_map, flatMap_const_nil]

theorem shadowMapDraws_slotCalls {M : Type} (i : ℕ) (d : LightDetails M) :
    shadowMapDraws (simpleLightSlotCalls i d) = [] := by
  simp [shadowMapDraws, shadowMapDrawOf, simpleLightSlotCalls]

theorem shadowMapDraws_placeholderCalls (i deadTextureId : ℕ) :
    shadowMapDraws (simpleLightPlaceholderCalls i deadTextureId) = [] := by
  simp [shadowMapDraws, shadowMapDrawOf, simpleLightPlaceholderCalls]

theorem shadowMapDraws_cubeSlotCalls {M : Type} (s i : ℕ) (d : LightDetails M) :
    shadowMapDraws (cubeLightSlotCalls s i d) = [] := by
  simp [shadowMapDraws, shadowMapDrawOf, cubeLightSlotCalls]

theorem shadowMapDraws_cubePlaceholderCalls (s i deadTextureId : ℕ) :
    shadowMapDraws (cubeLightPlaceholderCalls s i deadTextureId) = [] := by
  simp [shadowMapDraws, shadowMapDrawOf, cubeLightPlaceholderCalls]

theorem shadowMapDraws_mainPass {M : Type} (cat : CategorizedLights M)
    (dS dC : ℕ) (m : ModelRender M) :
    shadowMapDraws (mainPassModelCalls cat dS dC m) = [] := by
  simp only [mainPassModelCalls, shadowMapDraws, List.filterMap_append,
    filterMap_flatMap_eq]
  simp only [show (fun p : ℕ × LightDetails M =>
      List.filterMap _ (simpleLightSlotCalls p.1 p.2))
      = fun p => ([] : List (ℕ × ℕ)) from
    funext fun p => shadowMapDraws_slotCalls p.1 p.2]
  simp only [show (fun a : ℕ => List.filterMap _ (simpleLightPlaceholderCalls a dS))
      = fun a => ([] : List (ℕ × ℕ)) from
    funext fun a => shadowMapDraws_placeholderCalls a dS]
  simp only [show (fun p : ℕ × LightDetails M =>
      List.filterMap _ (cubeLightSlotCalls cat.simple.length p.1 p.2))
      = fun p => ([] : List (ℕ × ℕ)) from
    funext fun p => shadowMapDraws_cubeSlotCalls cat.simple.length p.1 p.2]
  simp only [show (fun a : ℕ =>
      List.filterMap _ (cubeLightPlaceholderCalls cat.simple.length a dC))
      = fun a => ([] : List (ℕ × ℕ)) from
    funext fun a => shadowMapDraws_cubePlaceholderCalls cat.simple.length a dC]
  simp [flatMap_const_nil]

theorem textureBinds_shadowPassModelCalls {M : Type} (l : LightBase M)
    (m : ModelRender M) :
    textureBinds (shadowPassModelCalls l m) = [] := by
  simp only [textureBinds, shadowPassModelCalls, List.filterMap_append,
    filterMap_flatMap_eq]
  simp [flatMap_const_nil]

theorem renderModelsStep_foldl_filterMap {M : Type} {γ : Type}
    (cat : CategorizedLights M) (dS dC : ℕ) (f : GLCall → Option γ)
    (hf : ∀ n, f (GLCall.useProgram n) = none) :
    ∀ (l : List (String × ModelRender M)) (sid : ℤ) (init : List GLCall),
      ((l.foldl (renderModelsStep cat dS dC) (sid, init)).2).filterMap f
        = init.filterMap f
          ++ l.flatMap (fun p => (mainPassModelCalls cat dS dC p.2).filterMap f) := by
  intro l
  induction l with
  | nil => intro sid init; simp
  | cons p rest ih =>
    intro sid init
    rw [List.foldl_cons]
    rw [show renderModelsStep cat dS dC (sid, init) p
        = ((renderModelsStep cat dS dC (sid, init) p).1,
           (renderModelsStep cat dS dC (sid, init) p).2) from rfl]
    rw [ih]
    have hcalls : ((renderModelsStep cat dS dC (sid, init) p).2).filterMap f
        = init.filterMap f ++ (mainPassModelCalls cat dS dC p.2).filterMap f := by
      simp only [renderModelsStep]
      by_cases hpr : sid ≠ ((p.2.shaderId : ℤ)) <;>
        simp [hpr, List.filterMap_append, hf]
    rw [hcalls, List.flatMap_cons, List.append_assoc]

theorem renderLightsStep_foldl_filterMap {M : Type} {γ : Type} [Monoid M]
    (models : StdMap (ModelRender M)) (f : GLCall → Option γ)
    (hf1 : ∀ n, f (GLCall.useProgram n) = none)
    (hf2 : ∀ n, f (GLCall.bindFramebuffer n) = none)
    (hf3 : f GLCall.clearScreen = none) :
    ∀ (l : List (String × LightBase M)) (cat : CategorizedLights M) (sid : ℤ)
      (init : List GLCall),
      ((l.foldl (renderLightsStep models) (cat, sid, init)).2.2).filterMap f
        = init.filterMap f
          ++ l.flatMap (fun p =>
              (models.flatMap (fun q => shadowPassModelCalls p.2 q.2)).filterMap f) := by
  intro l
  induction l with
  | nil => intro cat sid init; simp
  | cons p rest ih =>
    intro cat sid init
    rw [List.foldl_cons]
    rw [show renderLightsStep models (cat, sid, init) p
        = ((renderLightsStep models (cat, sid, init) p).1,
           (renderLightsStep models (cat, sid, init) p).2.1,
           (renderLightsStep models (cat, sid, init) p).2.2) from rfl]
    rw [ih]
    have hcalls : ((renderLightsStep models (cat, sid, init) p).2.2).filterMap f
        = init.filterMap f
          ++ (models.flatMap (fun q => shadowPassModelCalls p.2 q.2)).filterMap f := by
      simp only [renderLightsStep]
      by_cases hpr : sid ≠ ((p.2.shaderId : ℤ)) <;>
        simp [hpr, List.filterMap_append, hf1, hf2, hf3]
    rw [hcalls, List.flatMap_cons, List.append_assoc]

theorem renderLightsStep_foldl_cat {M : Type} [Monoid M]
    (models : StdMap (ModelRender M)) :
    ∀ (l : List (String × LightBase M)) (cat : CategorizedLights M) (sid : ℤ)
      (init : List GLCall),
      (l.foldl (renderLightsStep models) (cat, sid, init)).1.simple
          = cat.simple
            ++ (l.filter (fun p =>
                p.2.shadowBufferType == ShadowBufferType.SIMPLE)).map
                (fun p => lightDetailsOf p.2) ∧
      (l.foldl (renderLightsStep models) (cat, sid, init)).1.cube
          = cat.cube
            ++ (l.filter (fun p =>
                p.2.shadowBufferType == ShadowBufferType.CUBE)).map
                (fun p => lightDetailsOf p.2) := by
  intro l
  induction l with
  | nil => intro cat sid init; simp
  | cons p rest ih =>
    intro cat sid init
    rw [List.foldl_cons]
    rw [show renderLightsStep models (cat, sid, init) p
        = ((renderLightsStep models (cat, sid, init) p).1,
           (renderLightsStep models (cat, sid, init) p).2.1,
           (renderLightsStep models (cat, sid, init) p).2.2) from rfl]
    cases htyp : p.2.shadowBufferType with
    | SIMPLE =>
      have hcat : (renderLightsStep models (cat, sid, init) p).1
          = { cat with simple := cat.simple ++ [lightDetailsOf p.2] } := by
        simp [renderLightsStep, htyp]
      rw [hcat]
      obtain ⟨ihs, ihc⟩ := ih { cat with simple := cat.simple ++ [lightDetailsOf p.2] }
        ((renderLightsStep models (cat, sid, init) p).2.1)
        ((renderLightsStep models (cat, sid, init) p).2.2)
      refine ⟨?_, ?_⟩
      · rw [ihs]
        simp [List.filter_cons, htyp, List.append_assoc]
      · rw [ihc]
        simp [List.filter_cons, htyp]
    | CUBE =>
      have hcat : (renderLightsStep models (cat, sid, init) p).1
          = { cat with cube := cat.cube ++ [lightDetailsOf p.2] } := by
        simp [renderLightsStep, htyp]
      rw [hcat]
      obtain ⟨ihs, ihc⟩ := ih { cat with cube := cat.cube ++ [lightDetailsOf p.2] }
        ((renderLightsStep models (cat, sid, init) p).2.1)
        ((renderLightsStep models (cat, sid, init) p).2.2)
      refine ⟨?_, ?_⟩
      · rw [ihs]
        simp [List.filter_cons, htyp]
      · rw [ihc]
        simp [List.filter_cons, htyp, List.append_assoc]

theorem simpleShadowBinds_renderModels {M : Type} (s : RenderManagerState M)
    (cat : CategorizedLights M) (t : ℚ) :
    simpleShadowBinds (renderModels s cat t).2
      = s.registeredModels.flatMap (fun p =>
          simpleShadowBinds (mainPassModelCalls cat
            s.deadSimpleLight.shadowBufferTextureId
            s.deadCubeLight.shadowBufferTextureId p.2)) := by
  have h := renderModelsStep_foldl_filterMap cat
    s.deadSimpleLight.shadowBufferTextureId s.deadCubeLight.shadowBufferTextureId
    simpleShadowBindOf (fun _ => rfl) s.registeredModels (-1)
    [GLCall.switchWindowViewport, GLCall.setClearColor, GLCall.clearScreen]
  rw [show simpleShadowBinds (renderModels s cat t).2
      = ((s.registeredModels.foldl (renderModelsStep cat
          s.deadSimpleLight.shadowBufferTextureId
          s.deadCubeLight.shadowBufferTextureId)
          (-1, [GLCall.switchWindowViewport, GLCall.setClearColor,
            GLCall.clearScreen])).2).filterMap simpleShadowBindOf from rfl]
  rw [h]
  rfl

theorem cubeShadowBinds_renderModels {M : Type} (s : RenderManagerState M)
    (cat : CategorizedLights M) (t : ℚ) :
    cubeShadowBinds (renderModels s cat t).2
      = s.registeredModels.flatMap (fun p =>
          cubeShadowBinds (mainPassModelCalls cat
            s.deadSimpleLight.shadowBufferTextureId
            s.deadCubeLight.shadowBufferTextureId p.2)) := by
  have h := renderModelsStep_foldl_filterMap cat
    s.deadSimpleLight.shadowBufferTextureId s.deadCubeLight.shadowBufferTextureId
    cubeShadowBindOf (fun _ => rfl) s.registeredModels (-1)
    [GLCall.switchWindowViewport, GLCall.setClearColor, GLCall.clearScreen]
  rw [show cubeShadowBinds (renderModels s cat t).2
      = ((s.registeredModels.foldl (renderModelsStep cat
          s.deadSimpleLight.shadowBufferTextureId
          s.deadCubeLight.shadowBufferTextureId)
          (-1, [GLCall.switchWindowViewport, GLCall.setClearColor,
            GLCall.clearScreen])).2).filterMap cubeShadowBindOf from rfl]
  rw [h]
  rfl

theorem shadowMapDraws_renderModels {M : Type} (s : RenderManagerState M)
    (cat : CategorizedLights M) (t : ℚ) :
    shadowMapDraws (renderModels s cat t).2 = [] := by
  have h := renderModelsStep_foldl_filterMap cat
    s.deadSimpleLight.shadowBufferTextureId s.deadCubeLight.shadowBufferTextureId
    shadowMapDrawOf (fun _ => rfl) s.registeredModels (-1)
    [GLCall.switchWindowViewport, GLCall.setClearColor, GLCall.clearScreen]
  rw [show shadowMapDraws (renderModels s cat t).2
      = ((s.registeredModels.foldl (renderModelsStep cat
          s.deadSimpleLight.shadowBufferTextureId
          s.deadCubeLight.shadowBufferTextureId)
          (-1, [GLCall.switchWindowViewport, GLCall.setClearColor,
            GLCall.clearScreen])).2).filterMap shadowMapDrawOf from rfl]
  rw [h]
  simp only [show (fun p : String × ModelRender M =>
      (mainPassModelCalls cat s.deadSimpleLight.shadowBufferTextureId
        s.deadCubeLight.shadowBufferTextureId p.2).filterMap shadowMapDrawOf)
      = fun p => ([] : List (ℕ × ℕ)) from
    funext fun p => shadowMapDraws_mainPass cat _ _ p.2]
  simp [flatMap_const_nil]

theorem textureBinds_renderLights {M : Type} [Monoid M]
    (s : RenderManagerState M) :
    textureBinds (renderLights s).2 = [] := by
  have h := renderLightsStep_foldl_filterMap s.registeredModels textureBindOf
    (fun _ => rfl) (fun _ => rfl) rfl s.registeredLights ⟨[], []⟩ (-1)
    [GLCall.switchFrameBufferViewport, GLCall.setClearColor]
  rw [show textureBinds (renderLights s).2
      = ((s.registeredLights.foldl (renderLightsStep s.registeredModels)
          (⟨[], []⟩, -1, [GLCall.switchFrameBufferViewport,
            GLCall.setClearColor])).2.2).filterMap textureBindOf from rfl]
  rw [h]
  simp only [show (fun p : String × LightBase M =>
      (s.registeredModels.flatMap
        (fun q => shadowPassModelCalls p.2 q.2)).filterMap textureBindOf)
      = fun p => ([] : List (ℕ × TexTarget × ℕ)) from
    funext fun p => by
      rw [show (s.registeredModels.flatMap
          (fun q => shadowPassModelCalls p.2 q.2)).filterMap textureBindOf
          = textureBinds (s.registeredModels.flatMap
            (fun q => shadowPassModelCalls p.2 q.2)) from rfl]
      rw [show textureBinds (s.registeredModels.flatMap
          (fun q => shadowPassModelCalls p.2 q.2))
          = (s.registeredModels.flatMap
            (fun q => shadowPassModelCalls p.2 q.2)).filterMap textureBindOf from rfl,
        filterMap_flatMap_eq]
      simp only [show (fun q : String × ModelRender M =>
          (shadowPassModelCalls p.2 q.2).filterMap textureBindOf)
          = fun q => ([] : List (ℕ × TexTarget × ℕ)) from
        funext fun q => textureBinds_shadowPassModelCalls p.2 q.2]
      exact flatMap_const_nil _]
  simp [flatMap_const_nil]

theorem renderLights_cat_lists {M : Type} [Monoid M] (s : RenderManagerState M) :
    (renderLights s).1.simple
        = (s.registeredLights.filter (fun p =>
            p.2.shadowBufferType == ShadowBufferType.SIMPLE)).map
            (fun p => lightDetailsOf p.2) ∧
    (renderLights s).1.cube
        = (s.registeredLights.filter (fun p =>
            p.2.shadowBufferType == ShadowBufferType.CUBE)).map
            (fun p => lightDetailsOf p.2) := by
  have h := renderLightsStep_foldl_cat s.registeredModels s.registeredLights
    ⟨[], []⟩ (-1) [GLCall.switchFrameBufferViewport, GLCall.setClearColor]
  exact ⟨by rw [show (renderLights s).1
      = (s.registeredLights.foldl (renderLightsStep s.registeredModels)
          (⟨[], []⟩, -1, [GLCall.switchFrameBufferViewport,
            GLCall.setClearColor])).1 from rfl, h.1]; rfl,
    by rw [show (renderLights s).1
      = (s.registeredLights.foldl (renderLightsStep s.registeredModels)
          (⟨[], []⟩, -1, [GLCall.switchFrameBufferViewport,
            GLCall.setClearColor])).1 from rfl, h.2]; rfl⟩

theorem lightType_filter_partition_length {M : Type} :
    ∀ l : List (String × LightBase M),
      (l.filter (fun p => p.2.shadowBufferType == ShadowBufferType.SIMPLE)).length
        + (l.filter (fun p =>
            p.2.shadowBufferType == ShadowBufferType.CUBE)).length
        = l.length := by
  intro l
  induction l with
  | nil => rfl
  | cons p rest ih =>
    cases htyp : p.2.shadowBufferType <;>
      simp [List.filter_cons, htyp] <;> omega

theorem mem_right_of_get_append {α : Type _} (A B : List α) (i : ℕ)
    (h : i < (A ++ B).length) (hge : A.length ≤ i) :
    (A ++ B).get ⟨i, h⟩ ∈ B := by
  have hb : i - A.length < B.length := by
    simp only [List.length_append] at h
    omega
  have heq : (A ++ B).get ⟨i, h⟩ = B.get ⟨i - A.length, hb⟩ := by
    show (A ++ B)[i] = B[i - A.length]
    rw [List.getElem_append_right hge]
  rw [heq]
  exact List.getElem_mem hb

theorem mem_left_of_get_append {α : Type _} (A B : List α) (i : ℕ)
    (h : i < (A ++ B).length) (hlt : i < A.length) :
    (A ++ B).get ⟨i, h⟩ ∈ A := by
  have heq : (A ++ B).get ⟨i, h⟩ = A.get ⟨i, hlt⟩ := by
    show (A ++ B)[i] = A[i]
    rw [List.getElem_append_left]
  rw [heq]
  exact List.getElem_mem hlt

/-- C3 amended: each model draw of the main pass binds exactly 7 simple
(2D) shadow slots, at texture units 1 through 7, and exactly 8 cube slots,
at units 8 through 15: first one slot per collected light detail (its
shadow texture), then the dead placeholder light's texture in every
remaining slot up to the hard-coded literals 7 and 8 of renderModels —
bounds that are not the configured constants MAX_CONE_LIGHTS = 4 and
MAX_POINT_LIGHTS = 6 of constants.cpp. -/
theorem renderModels_shadow_slot_binds {M : Type} (s : RenderManagerState M)
    (cat : CategorizedLights M) (t : ℚ)
    (hs : cat.simple.length ≤ 7) (hc : cat.cube.length ≤ 8) :
    simpleShadowBinds (renderModels s cat t).2
      = s.registeredModels.flatMap (fun _ =>
          cat.simple.enum.map (fun p => (p.1 + 1, p.2.textureId))
          ++ (List.range' cat.simple.length (7 - cat.simple.length)).map
              (fun i => (i + 1, s.deadSimpleLight.shadowBufferTextureId))) ∧
    cubeShadowBinds (renderModels s cat t).2
      = s.registeredModels.flatMap (fun _ =>
          cat.cube.enum.map (fun p => (p.1 + 8, p.2.textureId))
          ++ (List.range' cat.cube.length (8 - cat.cube.length)).map
              (fun i => (i + 8, s.deadCubeLight.shadowBufferTextureId))) ∧
    (cat.simple.enum.map (fun p : ℕ × LightDetails M => (p.1 + 1, p.2.textureId))
      ++ (List.range' cat.simple.length (7 - cat.simple.length)).map
          (fun i => (i + 1, s.deadSimpleLight.shadowBufferTextureId))).length = 7 ∧
    (cat.cube.enum.map (fun p : ℕ × LightDetails M => (p.1 + 8, p.2.textureId))
      ++ (List.range' cat.cube.length (8 - cat.cube.length)).map
          (fun i => (i + 8, s.deadCubeLight.shadowBufferTextureId))).length = 8 := by
  refine ⟨?_, ?_, ?_, ?_⟩
  · rw [simpleShadowBinds_renderModels]
    simp only [simpleShadowBinds_mainPass]
  · rw [cubeShadowBinds_renderModels]
    simp only [cubeShadowBinds_mainPass]
  · simp only [List.length_append, List.length_map, List.enum_length,
      List.length_range']
    omega
  · simp only [List.length_append, List.length_map, List.enum_length,
      List.length_range']
    omega

/-- C3 witness: the slot characterization at a concrete state with one
registered model and one simple plus one cube light detail. -/
theorem renderModels_shadow_slot_binds_witness :
    simpleShadowBinds (renderModels rmModelOnly catOneOne 1).2
      = rmModelOnly.registeredModels.flatMap (fun _ =>
          catOneOne.simple.enum.map (fun p => (p.1 + 1, p.2.textureId))
          ++ (List.range' catOneOne.simple.length (7 - catOneOne.simple.length)).map
              (fun i => (i + 1, rmModelOnly.deadSimpleLight.shadowBufferTextureId))) ∧
    (catOneOne.simple.enum.map (fun p : ℕ × LightDetails Unit => (p.1 + 1, p.2.textureId))
      ++ (List.range' catOneOne.simple.length (7 - catOneOne.simple.length)).map
          (fun i => (i + 1, rmModelOnly.deadSimpleLight.shadowBufferTextureId))).length
      = 7 := by
  have h := renderModels_shadow_slot_binds rmModelOnly catOneOne 1
    (by decide) (by decide)
  exact ⟨h.1, h.2.2.1⟩

/-- C3 counterexample: with zero registered lights and one registered
model, the main pass binds 7 two-D shadow slots and 8 cube slots for that
model's draw — not the configured constants MAX_CONE_LIGHTS = 4 and
MAX_POINT_LIGHTS = 6 that the claim names as the binding maxima. -/
theorem renderModels_slot_count_not_constants :
    (simpleShadowBinds (renderModels rmModelOnly ⟨[], []⟩ 1).2).length = 7 ∧
    (cubeShadowBinds (renderModels rmModelOnly ⟨[], []⟩ 1).2).length = 8 ∧
    MAX_CONE_LIGHTS = 4 ∧ MAX_POINT_LIGHTS = 6 ∧
    (7 : ℕ) ≠ MAX_CONE_LIGHTS ∧ (8 : ℕ) ≠ MAX_POINT_LIGHTS := by
  decide

/-- C4 (code bug): renderLights collects, per registered light and in
registry order, exactly the LightDetails record of lightDetailsOf; that
record's combined matrix is projection[0] * view[0] (glm::mat4() being the
identity) and its mapWidth field is FRAMEBUFFER_WIDTH — but its mapHeight
field is also FRAMEBUFFER_WIDTH (render.cpp line 192), not
FRAMEBUFFER_HEIGHT, although the two configured 2x-of-viewport dimensions
differ (1600 vs 1200). -/
theorem renderLights_details_record {M : Type} [Monoid M]
    (s : RenderManagerState M) :
    ((renderLights s).1.simple
        = (s.registeredLights.filter (fun p =>
            p.2.shadowBufferType == ShadowBufferType.SIMPLE)).map
            (fun p => lightDetailsOf p.2) ∧
     (renderLights s).1.cube
        = (s.registeredLights.filter (fun p =>
            p.2.shadowBufferType == ShadowBufferType.CUBE)).map
            (fun p => lightDetailsOf p.2)) ∧
    ∀ l : LightBase M,
      (lightDetailsOf l).lightVpMatrix
          = l.projectionMatrices.headD 1 * l.viewMatrices.headD 1 ∧
      (lightDetailsOf l).mapWidth = FRAMEBUFFER_WIDTH ∧
      (lightDetailsOf l).mapHeight = FRAMEBUFFER_WIDTH ∧
      FRAMEBUFFER_WIDTH = 2 * VIEWPORT_WIDTH ∧
      FRAMEBUFFER_HEIGHT = 2 * VIEWPORT_HEIGHT ∧
      FRAMEBUFFER_WIDTH ≠ FRAMEBUFFER_HEIGHT := by
  refine ⟨renderLights_cat_lists s, ?_⟩
  intro l
  refine ⟨?_, rfl, rfl, by decide, by decide, by decide⟩
  simp [lightDetailsOf, mul_one]

/-- C10 (code bug): with one simple and one cube light collected, the cube
slot 0 of a model draw binds its cube shadow texture to texture unit
8 = 0 + 8, but the sampler uniform cubeLightTextures[0] is uploaded with
the value 9 = simpleLightsCount + 0 + 8, and no upload sets it to the
bound unit 8 — the uploaded sampler value disagrees with the unit actually
bound whenever any simple light is registered. -/
theorem cube_sampler_unit_mismatch :
    (GLCall.bindTexture 8 TexTarget.cubeMap 42)
        ∈ mainPassModelCalls catOneOne 91 93 modelA ∧
    (GLCall.uniformInt "cubeLightTextures[0]" 9)
        ∈ mainPassModelCalls catOneOne 91 93 modelA ∧
    ¬ (GLCall.uniformInt "cubeLightTextures[0]" 8)
        ∈ mainPassModelCalls catOneOne 91 93 modelA := by
  decide

/-- C5: renderLights collects a detail record for every registered light
(the two categorized sequences together are as long as the light
registry), and in the combined call list of render() every shadow-map
producing draw (a draw into a non-default framebuffer) comes strictly
before every texture-consuming bind of the main pass — no main-pass
operation precedes any shadow-pass operation. -/
theorem render_shadow_pass_before_main {M : Type} [Monoid M]
    (s : RenderManagerState M) (t : ℚ) :
    (renderLights s).1.simple.length + (renderLights s).1.cube.length
        = s.registeredLights.length ∧
    ∀ i j (hi : i < ((render s t).2).length) (hj : j < ((render s t).2).length)
      (fb n : ℕ),
      ((render s t).2).get ⟨i, hi⟩ = GLCall.drawArrays fb n → fb ≠ 0 →
      ∀ (u : ℕ) (tgt : TexTarget) (tex : ℕ),
        ((render s t).2).get ⟨j, hj⟩ = GLCall.bindTexture u tgt tex →
        i < j := by
  constructor
  · obtain ⟨hsim, hcub⟩ := renderLights_cat_lists s
    rw [hsim, hcub]
    simp only [List.length_map]
    exact lightType_filter_partition_length s.registeredLights
  · intro i j hi hj fb n hdraw hfb u tgt tex hbind
    have hAno : ∀ e ∈ (renderLights s).2, textureBindOf e = none := by
      intro e he
      exact List.filterMap_eq_nil_iff.mp (textureBinds_renderLights s) e he
    have hBno : ∀ e ∈ (renderModels s (renderLights s).1 t).2,
        shadowMapDrawOf e = none := by
      intro e he
      exact List.filterMap_eq_nil_iff.mp
        (shadowMapDraws_renderModels s (renderLights s).1 t) e he
    have hiA : i < ((renderLights s).2).length := by
      by_contra hge
      push_neg at hge
      have hmem : ((render s t).2).get ⟨i, hi⟩
          ∈ (renderModels s (renderLights s).1 t).2 :=
        mem_right_of_get_append (renderLights s).2
          (renderModels s (renderLights s).1 t).2 i hi hge
      have h0 := hBno _ hmem
      rw [hdraw] at h0
      rcases Nat.exists_eq_succ_of_ne_zero hfb with ⟨m, rfl⟩
      simp [shadowMapDrawOf] at h0
    have hjB : ((renderLights s).2).length ≤ j := by
      by_contra hlt
      push_neg at hlt
      have hmem : ((render s t).2).get ⟨j, hj⟩ ∈ (renderLights s).2 :=
        mem_left_of_get_append (renderLights s).2
          (renderModels s (renderLights s).1 t).2 j hj hlt
      have h0 := hAno _ hmem
      rw [hbind] at h0
      simp [textureBindOf] at h0
    omega

/-- C5 witness: on a concrete state with one light and one model, the
shadow-map draw (into framebuffer 5, at call index 22) precedes the
main-pass bind of that light's shadow texture 6 to unit 1 (call index
55). -/
theorem render_shadow_pass_before_main_witness :
    ((render rmOne 2).2)[22]? = some (GLCall.drawArrays 5 9) ∧
    ((render rmOne 2).2)[55]? = some (GLCall.bindTexture 1 TexTarget.twoD 6) ∧
    (22 : ℕ) < 55 := by
  refine ⟨by decide, by decide, ?_⟩
  exact (render_shadow_pass_before_main rmOne 2).2 22 55 (by decide) (by decide)
    5 9 (by decide) (by decide) 1 TexTarget.twoD 6 (by decide)

end OpenGLTutorial
